import Mathlib

/-!
Verification development for the Payments microservice.

Shallow embedding of the webhook signing/verification utilities
(`app/utils/hmac_utils.py`), the payment orchestrator
(`app/services/payment_service.py`), the webhook dispatcher
(`app/services/webhook_service.py`) and the repositories
(`app/db/repositories/*.py`) of the source tree, together with proofs of
the behavioural claims about them.

Modelling conventions:
* Python `bytes` are `List Nat` (each entry one byte).
* Python `str` values that get parsed character by character are `List Char`;
  opaque string values (secrets, messages, names) are Lean `String`.
* Wall-clock time (`time.time()`, `datetime.utcnow()`) is an explicit `Int`
  parameter (Unix seconds) threaded through each operation.
* Database rows live in explicit lists; a service operation maps a state to a
  new state plus an `Except` result.  A raised Python exception is an
  `Except.error`; the state returned with it is the session state at the time
  of the raise (commit/rollback at the HTTP layer is outside the embedded
  operations).
-/

/- ### Python string primitives (`str.split`, `str.strip`, `int(...)`) -/

/-- Whitespace characters removed by Python `str.strip()`. -/
def isPySpace (c : Char) : Bool :=
  c = ' ' || c = '\t' || c = '\n' || c = '\r' || c = (Char.ofNat 11) || c = (Char.ofNat 12)

/-- Drop trailing characters satisfying `p`. -/
def dropRightWhile (p : Char → Bool) (s : List Char) : List Char :=
  (s.reverse.dropWhile p).reverse

/-- Python `str.strip()`. -/
def pyStrip (s : List Char) : List Char :=
  dropRightWhile isPySpace (s.dropWhile isPySpace)

/-- Python `str.split(sep)` for a one-character separator: `"a,,b"` splits to
`["a", "", "b"]` and `""` splits to `[""]`. -/
def splitOnChar (sep : Char) : List Char → List (List Char)
  | [] => [[]]
  | c :: rest =>
    match splitOnChar sep rest with
    | [] => [[]]
    | r :: rs => if c = sep then [] :: r :: rs else (c :: r) :: rs

/-- Python `str.split(sep, 1)` when `sep` occurs: the part before the first
occurrence and everything after it. -/
def splitFirst (sep : Char) : List Char → List Char × List Char
  | [] => ([], [])
  | c :: rest =>
    if c = sep then ([], rest)
    else
      let r := splitFirst sep rest
      (c :: r.1, r.2)

/-- Decimal digit to character, as `str(int)` renders digits. -/
def digitChar (n : Nat) : Char :=
  ("0123456789".toList).getD n '0'

/-- Character to decimal digit value (only meaningful on `'0'..'9'`). -/
def digitVal (c : Char) : Nat := c.toNat - 48

/-- Python `str.isdigit` restricted to ASCII decimal digits, which is all
`int(...)` accepts besides sign and whitespace. -/
def isDigitChar (c : Char) : Bool := 48 ≤ c.toNat && c.toNat ≤ 57

/-- Decimal rendering of a natural number, as Python `str()` produces it. -/
def natToChars (n : Nat) : List Char :=
  if _h : n < 10 then [digitChar n]
  else natToChars (n / 10) ++ [digitChar (n % 10)]
termination_by n
decreasing_by exact Nat.div_lt_self (by omega) (by omega)

/-- Decimal rendering of an integer, as the f-string `f"{timestamp}"` does. -/
def intToChars (i : Int) : List Char :=
  if i < 0 then '-' :: natToChars i.natAbs else natToChars i.toNat

/-- Value of a digit string (left fold, most significant first). -/
def charsVal (s : List Char) : Nat :=
  s.foldl (fun a c => 10 * a + digitVal c) 0

/- ### Python exceptions raised or caught by the embedded code -/

/-- The Python exceptions that the embedded operations raise.  All of them are
`Exception` subclasses in the source (`app/utils/exceptions.py`, builtin
`TypeError`/`ValueError`, SQLAlchemy `IntegrityError`, pydantic
`ValidationError`), so a bare `except Exception` catches every one. -/
inductive PyErr where
  | notFound (payment_id : Nat)
  | partnerNotFound (partner_id : Nat)
  | invalidState (payment_id : Nat) (current_state : String) (operation : String)
  | providerError (provider : String) (message : String)
  | verificationError (message : String)
  | valueError (message : String)
  | typeError (message : String)
  | validationError (message : String)
  | integrityError (message : String)
  | attributeError (message : String)
deriving DecidableEq

/-- Python `str(e)` for the modelled exceptions, mirroring the message
formats in `app/utils/exceptions.py` and the builtin exceptions. -/
def PyErr.str : PyErr → String
  | .notFound pid => "Payment not found: " ++ toString pid
  | .partnerNotFound pid => "Partner not found: " ++ toString pid
  | .invalidState pid cur op =>
      "Cannot " ++ op ++ " payment " ++ toString pid ++ " in state " ++ cur
  | .providerError p m => "Payment provider error (" ++ p ++ "): " ++ m
  | .verificationError m => "Webhook verification failed: " ++ m
  | .valueError m => m
  | .typeError m => m
  | .validationError m => m
  | .integrityError m => m
  | .attributeError m => m

/-- Python `int(s)`: strip whitespace, optional sign, then decimal digits;
anything else raises `ValueError`.  (Underscore digit grouping, accepted by
CPython, is not modelled; no claim depends on it.) -/
def digitsVal (s : List Char) : Except PyErr Nat :=
  if s ≠ [] ∧ s.all isDigitChar then .ok (charsVal s)
  else .error (.valueError "invalid literal for int() with base 10")

/-- Python `int(s)` on a string. -/
def pyInt (s : List Char) : Except PyErr Int :=
  match pyStrip s with
  | [] => .error (.valueError "invalid literal for int() with base 10")
  | c :: rest =>
    if c = '-' then (digitsVal rest).map (fun n => -(Int.ofNat n))
    else if c = '+' then (digitsVal rest).map (fun n => Int.ofNat n)
    else (digitsVal (pyStrip s)).map (fun n => Int.ofNat n)

/- ### SHA-256 and HMAC (the `hashlib.sha256` / `hmac.new` calls) -/

/-- Addition modulo `2^32`. -/
def add32 (a b : Nat) : Nat := (a + b) % 4294967296

/-- Right rotation of a 32-bit word. -/
def rotr32 (x n : Nat) : Nat :=
  ((x >>> n) ||| (x <<< (32 - n))) % 4294967296

/-- Bitwise complement of a 32-bit word. -/
def not32 (x : Nat) : Nat := x ^^^ 4294967295

/-- SHA-256 `Ch` function. -/
def shaCh (e f g : Nat) : Nat := (e &&& f) ^^^ (not32 e &&& g)

/-- SHA-256 `Maj` function. -/
def shaMaj (a b c : Nat) : Nat := Nat.xor (Nat.xor (a &&& b) (a &&& c)) (b &&& c)

/-- Three-way xor. -/
def xor3 (x y z : Nat) : Nat := x ^^^ y ^^^ z

/-- SHA-256 big sigma 0. -/
def bsig0 (x : Nat) : Nat := xor3 (rotr32 x 2) (rotr32 x 13) (rotr32 x 22)

/-- SHA-256 big sigma 1. -/
def bsig1 (x : Nat) : Nat := xor3 (rotr32 x 6) (rotr32 x 11) (rotr32 x 25)

/-- SHA-256 small sigma 0. -/
def ssig0 (x : Nat) : Nat := xor3 (rotr32 x 7) (rotr32 x 18) (x >>> 3)

/-- SHA-256 small sigma 1. -/
def ssig1 (x : Nat) : Nat := xor3 (rotr32 x 17) (rotr32 x 19) (x >>> 10)

/-- SHA-256 round constants (FIPS 180-4), written in decimal. -/
def shaK : List Nat :=
  [1116352408, 1899447441, 3049323471, 3921009573,
   961987163, 1508970993, 2453635748, 2870763221,
   3624381080, 310598401, 607225278, 1426881987,
   1925078388, 2162078206, 2614888103, 3248222580,
   3835390401, 4022224774, 264347078, 604807628,
   770255983, 1249150122, 1555081692, 1996064986,
   2554220882, 2821834349, 2952996808, 3210313671,
   3336571891, 3584528711, 113926993, 338241895,
   666307205, 773529912, 1294757372, 1396182291,
   1695183700, 1986661051, 2177026350, 2456956037,
   2730485921, 2820302411, 3259730800, 3345764771,
   3516065817, 3600352804, 4094571909, 275423344,
   430227734, 506948616, 659060556, 883997877,
   958139571, 1322822218, 1537002063, 1747873779,
   1955562222, 2024104815, 2227730452, 2361852424,
   2428436474, 2756734187, 3204031479, 3329325298]

/-- SHA-256 initial hash state (FIPS 180-4). -/
structure Sha256State where
  a : Nat
  b : Nat
  c : Nat
  d : Nat
  e : Nat
  f : Nat
  g : Nat
  h : Nat
deriving DecidableEq

/-- The initial state `H(0)` (FIPS 180-4), written in decimal. -/
def shaInit : Sha256State :=
  ⟨1779033703, 3144134277, 1013904242, 2773480762,
   1359893119, 2600822924, 528734635, 1541459225⟩

/-- Big-endian 32-bit words of a byte list (groups of four). -/
def toWords : List Nat → List Nat
  | a :: b :: c :: d :: rest => (((a * 256 + b) * 256 + c) * 256 + d) :: toWords rest
  | _ => []

/-- Append the next word of the message schedule (requires 16 ≤ length). -/
def scheduleStep (w : List Nat) : List Nat :=
  let n := w.length
  w ++ [add32 (add32 (ssig1 (w.getD (n - 2) 0)) (w.getD (n - 7) 0))
              (add32 (ssig0 (w.getD (n - 15) 0)) (w.getD (n - 16) 0))]

/-- The 64-entry message schedule of one chunk. -/
def schedule (chunk : List Nat) : List Nat :=
  (List.range 48).foldl (fun w _ => scheduleStep w) (toWords chunk)

/-- One SHA-256 compression round. -/
def shaRound (st : Sha256State) (kw : Nat × Nat) : Sha256State :=
  let t1 := add32 (add32 (add32 st.h (bsig1 st.e)) (add32 (shaCh st.e st.f st.g) kw.1)) kw.2
  let t2 := add32 (bsig0 st.a) (shaMaj st.a st.b st.c)
  ⟨add32 t1 t2, st.a, st.b, st.c, add32 st.d t1, st.e, st.f, st.g⟩

/-- Compress one 64-byte chunk into the running state. -/
def shaCompress (st : Sha256State) (chunk : List Nat) : Sha256State :=
  let w := schedule chunk
  let r := (shaK.zip w).foldl shaRound st
  ⟨add32 st.a r.a, add32 st.b r.b, add32 st.c r.c, add32 st.d r.d,
   add32 st.e r.e, add32 st.f r.f, add32 st.g r.g, add32 st.h r.h⟩

/-- Split a byte list into 64-byte chunks. -/
def chunks64 (l : List Nat) : List (List Nat) :=
  if l = [] then [] else l.take 64 :: chunks64 (l.drop 64)
termination_by l.length
decreasing_by
  rename_i h
  have : l.length ≠ 0 := fun hh => h (List.eq_nil_of_length_eq_zero hh)
  simp [List.length_drop]
  omega

/-- Big-endian eight-byte encoding of a (message bit-) length. -/
def len64be (n : Nat) : List Nat :=
  [n >>> 56 &&& 255, n >>> 48 &&& 255, n >>> 40 &&& 255, n >>> 32 &&& 255,
   n >>> 24 &&& 255, n >>> 16 &&& 255, n >>> 8 &&& 255, n &&& 255]

/-- SHA-256 padding: `0x80`, zero bytes to 56 mod 64, then the bit length. -/
def shaPad (msg : List Nat) : List Nat :=
  let len := msg.length
  msg ++ [128] ++ List.replicate ((119 - len % 64) % 64) 0 ++ len64be (8 * len)

/-- Big-endian bytes of one 32-bit word. -/
def wordBytes (w : Nat) : List Nat :=
  [w >>> 24 &&& 255, w >>> 16 &&& 255, w >>> 8 &&& 255, w &&& 255]

/-- Concatenated big-endian bytes of a word list. -/
def wordsToBytes (ws : List Nat) : List Nat :=
  ws.foldr (fun w acc => wordBytes w ++ acc) []

/-- SHA-256 digest (32 bytes) of a byte string, per FIPS 180-4; this is what
`hashlib.sha256` computes. -/
def sha256 (msg : List Nat) : List Nat :=
  let fin := (chunks64 (shaPad msg)).foldl shaCompress shaInit
  wordsToBytes [fin.a, fin.b, fin.c, fin.d, fin.e, fin.f, fin.g, fin.h]

/-- HMAC-SHA256 (RFC 2104) of a message under a key; this is what
`hmac.new(key, msg, hashlib.sha256).digest()` computes. -/
def hmacSha256 (key msg : List Nat) : List Nat :=
  let k0 := if key.length > 64 then sha256 key else key
  let k := k0 ++ List.replicate (64 - k0.length) 0
  let ipad := k.map (fun b => b ^^^ 0x36)
  let opad := k.map (fun b => b ^^^ 0x5c)
  sha256 (opad ++ sha256 (ipad ++ msg))

/-- The sixteen lowercase hex digits, in order. -/
def hexAlphabet : List Char :=
  "0123456789abcdef".toList

/-- One hex digit character. -/
def hexChar (n : Nat) : Char := hexAlphabet.getD n '0'

/-- Lowercase hex rendering of a byte list (`.hexdigest()`). -/
def hexOfBytes (bs : List Nat) : List Char :=
  bs.foldr (fun b acc => hexChar (b / 16 % 16) :: hexChar (b % 16) :: acc) []

/-- Bytes of a secret string; secrets in this service are ASCII
(`whsec_` + URL-safe base64), where UTF-8 bytes coincide with codepoints. -/
def strBytes (s : String) : List Nat := s.toList.map Char.toNat

/- ### `app/utils/hmac_utils.py` -/

/-- Tolerance for webhook timestamp verification (5 minutes),
`hmac_utils.TIMESTAMP_TOLERANCE_SECONDS`. -/
def TIMESTAMP_TOLERANCE_SECONDS : Int := 300

/-- `generate_signature(payload, secret)`: lowercase hex HMAC-SHA256 digest of
the payload under the secret. -/
def generate_signature (payload : List Nat) (secret : String) : List Char :=
  hexOfBytes (hmacSha256 (strBytes secret) payload)

/-- `verify_signature(payload, signature, secret)`: recompute and compare with
`hmac.compare_digest` (constant time in Python; extensionally equality). -/
def verify_signature (payload : List Nat) (signature : List Char) (secret : String) : Bool :=
  generate_signature payload secret == signature

/-- The byte string `f"{timestamp}.".encode("utf-8")` (digits are ASCII). -/
def tsDotBytes (timestamp : Int) : List Nat :=
  (intToChars timestamp).map Char.toNat ++ [46]

/-- `create_webhook_signature_header(payload, secret, timestamp)`: the header
`"t=<timestamp>,v1=<signature>"`, signature over `"<timestamp>." + payload`.
The `timestamp` argument is explicit; the source defaults it to
`int(time.time())`. -/
def create_webhook_signature_header (payload : List Nat) (secret : String)
    (timestamp : Int) : List Char :=
  let signed_payload := tsDotBytes timestamp ++ payload
  let signature := generate_signature signed_payload secret
  ('t' :: '=' :: intToChars timestamp) ++ (',' :: 'v' :: '1' :: '=' :: signature)

/-- The `parts` dictionary built by the parsing loop in
`verify_webhook_signature_header`: assignment replaces an existing key. -/
def dictUpsert (k v : List Char) : List (List Char × List Char) → List (List Char × List Char)
  | [] => [(k, v)]
  | (k0, v0) :: rest => if k0 = k then (k, v) :: rest else (k0, v0) :: dictUpsert k v rest

/-- Python `dict.get`. -/
def dictGet (k : List Char) : List (List Char × List Char) → Option (List Char)
  | [] => none
  | (k0, v0) :: rest => if k0 = k then some v0 else dictGet k rest

/-- The header-parsing loop of `verify_webhook_signature_header`: split on
commas, keep items containing `=`, split each at the first `=` and strip. -/
def parseHeaderParts (signature_header : List Char) : List (List Char × List Char) :=
  (splitOnChar ',' signature_header).foldl
    (fun parts item =>
      if item.contains '=' then
        let kv := splitFirst '=' item
        dictUpsert (pyStrip kv.1) (pyStrip kv.2) parts
      else parts)
    []

/-- Python truthiness of `parts.get(...)`: `None` and the empty string are
falsy. -/
def pyTruthyStr : Option (List Char) → Bool
  | none => false
  | some s => !s.isEmpty

/-- The body of the `try:` block of `verify_webhook_signature_header`.
`int(timestamp_str)` may raise `ValueError`, which the caller catches. -/
def verify_body (payload : List Nat) (signature_header : List Char) (secret : String)
    (tolerance_seconds : Int) (now : Int) : Except PyErr (Bool × Option String) :=
  let parts := parseHeaderParts signature_header
  let timestamp_str := dictGet ['t'] parts
  let received_signature := dictGet ['v', '1'] parts
  if !pyTruthyStr timestamp_str || !pyTruthyStr received_signature then
    .ok (false, some "Invalid signature header format")
  else
    match pyInt (timestamp_str.getD []) with
    | .error e => .error e
    | .ok timestamp =>
      if ((now - timestamp).natAbs : Int) > tolerance_seconds then
        .ok (false, some "Timestamp out of tolerance")
      else if !verify_signature (tsDotBytes timestamp ++ payload)
          (received_signature.getD []) secret then
        .ok (false, some "Invalid signature")
      else .ok (true, none)

/-- `verify_webhook_signature_header(payload, header, secret, tolerance)`:
wraps the body in `try/except ValueError/except Exception`, so every
exception becomes a `(False, message)` result.  `now` stands for
`int(time.time())`. -/
def verify_webhook_signature_header (payload : List Nat) (signature_header : List Char)
    (secret : String) (tolerance_seconds : Int) (now : Int) : Bool × Option String :=
  match verify_body payload signature_header secret tolerance_seconds now with
  | .ok r => r
  | .error (.valueError m) => (false, some ("Failed to parse signature: " ++ m))
  | .error e => (false, some ("Verification error: " ++ e.str))

/-- `verify_webhook_with_secrets(payload, header, current, previous, tol)`:
try the current secret, then - if `previous_secret` is truthy - the previous
one; on double failure return the first attempt's error.  No expiry of the
previous secret is consulted. -/
def verify_webhook_with_secrets (payload : List Nat) (signature_header : List Char)
    (current_secret : String) (previous_secret : Option String)
    (tolerance_seconds : Int) (now : Int) : Bool × Option String :=
  let first := verify_webhook_signature_header payload signature_header current_secret
      tolerance_seconds now
  if first.1 then (true, none)
  else
    match previous_secret with
    | some ps =>
      if ps ≠ "" then
        if (verify_webhook_signature_header payload signature_header ps
            tolerance_seconds now).1 then (true, none)
        else (false, first.2)
      else (false, first.2)
    | none => (false, first.2)

/- ### Character and parsing lemmas -/

theorem char_ne_of_toNat {c d : Char} (h : c.toNat ≠ d.toNat) : c ≠ d :=
  fun he => h (congrArg Char.toNat he)

/-- A decimal digit character is not whitespace, a comma, a sign or `=`. -/
theorem digit_not_special (c : Char) (h : isDigitChar c = true) :
    isPySpace c = false ∧ c ≠ ',' ∧ c ≠ '-' ∧ c ≠ '+' := by
  simp only [isDigitChar, Bool.and_eq_true, decide_eq_true_eq] at h
  have hsp : (' ').toNat = 32 := rfl
  have htb : ('\t').toNat = 9 := rfl
  have hnl : ('\n').toNat = 10 := rfl
  have hcr : ('\r').toNat = 13 := rfl
  have hvt : (Char.ofNat 11).toNat = 11 := rfl
  have hff : (Char.ofNat 12).toNat = 12 := rfl
  have hcom : (',').toNat = 44 := rfl
  have hmin : ('-').toNat = 45 := rfl
  have hplu : ('+').toNat = 43 := rfl
  refine ⟨?_, ?_, ?_, ?_⟩
  · simp only [isPySpace, Bool.or_eq_false_iff, decide_eq_false_iff_not]
    exact ⟨⟨⟨⟨⟨char_ne_of_toNat (by omega), char_ne_of_toNat (by omega)⟩,
      char_ne_of_toNat (by omega)⟩, char_ne_of_toNat (by omega)⟩,
      char_ne_of_toNat (by omega)⟩, char_ne_of_toNat (by omega)⟩
  · exact char_ne_of_toNat (by omega)
  · exact char_ne_of_toNat (by omega)
  · exact char_ne_of_toNat (by omega)

theorem isDigitChar_digitChar (d : Nat) (h : d < 10) : isDigitChar (digitChar d) = true := by
  interval_cases d <;> rfl

theorem digitVal_digitChar (d : Nat) (h : d < 10) : digitVal (digitChar d) = d := by
  interval_cases d <;> rfl

theorem natToChars_ne_nil (n : Nat) : natToChars n ≠ [] := by
  rw [natToChars]
  split
  · simp
  · simp

theorem natToChars_digits (n : Nat) : ∀ c ∈ natToChars n, isDigitChar c = true := by
  induction n using Nat.strong_induction_on with
  | _ n ih =>
    rw [natToChars]
    split
    · rename_i h
      intro c hc
      simp only [List.mem_singleton] at hc
      exact hc ▸ isDigitChar_digitChar n h
    · rename_i h
      intro c hc
      rw [List.mem_append] at hc
      rcases hc with hc | hc
      · exact ih (n / 10) (Nat.div_lt_self (by omega) (by omega)) c hc
      · simp only [List.mem_singleton] at hc
        exact hc ▸ isDigitChar_digitChar (n % 10) (Nat.mod_lt _ (by omega))

theorem charsVal_append_digit (xs : List Char) (c : Char) :
    charsVal (xs ++ [c]) = 10 * charsVal xs + digitVal c := by
  simp [charsVal, List.foldl_append]

theorem charsVal_natToChars (n : Nat) : charsVal (natToChars n) = n := by
  induction n using Nat.strong_induction_on with
  | _ n ih =>
    rw [natToChars]
    split
    · rename_i h
      simp [charsVal, digitVal_digitChar n h]
    · rename_i h
      rw [charsVal_append_digit, ih (n / 10) (Nat.div_lt_self (by omega) (by omega)),
        digitVal_digitChar (n % 10) (Nat.mod_lt _ (by omega))]
      omega

theorem dropWhile_of_none (p : Char → Bool) (s : List Char)
    (h : ∀ c ∈ s, p c = false) : s.dropWhile p = s := by
  cases s with
  | nil => rfl
  | cons a t => simp [List.dropWhile_cons, h a (List.mem_cons_self a t)]

theorem pyStrip_of_plain (s : List Char) (h : ∀ c ∈ s, isPySpace c = false) :
    pyStrip s = s := by
  unfold pyStrip dropRightWhile
  rw [dropWhile_of_none _ _ h, dropWhile_of_none, List.reverse_reverse]
  intro c hc
  exact h c (List.mem_reverse.mp hc)

theorem splitOnChar_ne_nil (sep : Char) (l : List Char) : splitOnChar sep l ≠ [] := by
  cases l with
  | nil => simp [splitOnChar]
  | cons c rest =>
    cases h : splitOnChar sep rest with
    | nil => rw [splitOnChar, h]; simp
    | cons r rs =>
      rw [splitOnChar, h]
      dsimp only
      split <;> simp

theorem splitOnChar_of_not_mem (sep : Char) (xs : List Char) (h : sep ∉ xs) :
    splitOnChar sep xs = [xs] := by
  induction xs with
  | nil => rfl
  | cons c rest ih =>
    rw [splitOnChar]
    have hcr : sep ∉ rest := fun hm => h (List.mem_cons_of_mem _ hm)
    rw [ih hcr]
    have hc : ¬(c = sep) := fun he => h (he ▸ List.mem_cons_self c rest)
    simp [hc]

theorem splitOnChar_append (sep : Char) (xs ys : List Char) (h : sep ∉ xs) :
    splitOnChar sep (xs ++ sep :: ys) = xs :: splitOnChar sep ys := by
  induction xs with
  | nil =>
    simp only [List.nil_append]
    rw [splitOnChar]
    rcases hr : splitOnChar sep ys with _ | ⟨r, rs⟩
    · exact absurd hr (splitOnChar_ne_nil sep ys)
    · simp
  | cons c rest ih =>
    have hcr : sep ∉ rest := fun hm => h (List.mem_cons_of_mem _ hm)
    have hc : ¬(c = sep) := fun he => h (he ▸ List.mem_cons_self c rest)
    simp only [List.cons_append]
    rw [splitOnChar, ih hcr]
    simp [hc]

theorem hexAlphabet_plain :
    hexAlphabet.all (fun c => !isPySpace c && !(c == ',')) = true := by decide

theorem hex_char_plain (c : Char) (h : c ∈ hexAlphabet) :
    isPySpace c = false ∧ c ≠ ',' := by
  have hall := hexAlphabet_plain
  rw [List.all_eq_true] at hall
  have hc := hall c h
  simp only [Bool.and_eq_true, Bool.not_eq_true', beq_eq_false_iff_ne, ne_eq] at hc
  exact hc

theorem hexChar_mem (n : Nat) : hexChar n ∈ hexAlphabet := by
  rcases Nat.lt_or_ge n 16 with h | h
  · interval_cases n <;> decide
  · rw [hexChar, List.getD_eq_default]
    · decide
    · simpa [hexAlphabet] using h

theorem hexOfBytes_chars (bs : List Nat) : ∀ c ∈ hexOfBytes bs, c ∈ hexAlphabet := by
  induction bs with
  | nil => simp [hexOfBytes]
  | cons b rest ih =>
    intro c hc
    have hrw : hexOfBytes (b :: rest) =
        hexChar (b / 16 % 16) :: hexChar (b % 16) :: hexOfBytes rest := rfl
    rw [hrw, List.mem_cons, List.mem_cons] at hc
    rcases hc with hc | hc | hc
    · exact hc ▸ hexChar_mem _
    · exact hc ▸ hexChar_mem _
    · exact ih c hc

theorem sha256_ne_nil (msg : List Nat) : sha256 msg ≠ [] := by
  simp [sha256, wordsToBytes, wordBytes]

theorem hexOfBytes_ne_nil (bs : List Nat) (h : bs ≠ []) : hexOfBytes bs ≠ [] := by
  cases bs with
  | nil => exact absurd rfl h
  | cons b rest => simp [hexOfBytes]

theorem generate_signature_ne_nil (payload : List Nat) (secret : String) :
    generate_signature payload secret ≠ [] := by
  unfold generate_signature hmacSha256
  exact hexOfBytes_ne_nil _ (sha256_ne_nil _)

theorem intToChars_ne_nil (t : Int) : intToChars t ≠ [] := by
  unfold intToChars
  split
  · simp
  · exact natToChars_ne_nil _

theorem intToChars_plain (t : Int) :
    ∀ c ∈ intToChars t, isPySpace c = false ∧ c ≠ ',' := by
  unfold intToChars
  split
  · intro c hc
    rcases List.mem_cons.mp hc with h | h
    · subst h; exact ⟨by decide, by decide⟩
    · have hd := digit_not_special _ (natToChars_digits _ _ h)
      exact ⟨hd.1, hd.2.1⟩
  · intro c hc
    have hd := digit_not_special _ (natToChars_digits _ _ hc)
    exact ⟨hd.1, hd.2.1⟩

theorem digitsVal_natToChars (n : Nat) : digitsVal (natToChars n) = .ok n := by
  unfold digitsVal
  rw [if_pos, charsVal_natToChars]
  exact ⟨natToChars_ne_nil n, List.all_eq_true.mpr (natToChars_digits n)⟩

theorem pyInt_intToChars (t : Int) : pyInt (intToChars t) = .ok t := by
  have hstrip : pyStrip (intToChars t) = intToChars t :=
    pyStrip_of_plain _ (fun c hc => (intToChars_plain t c hc).1)
  by_cases ht : t < 0
  · have h1 : intToChars t = '-' :: natToChars t.natAbs := by
      rw [intToChars, if_pos ht]
    rw [h1] at hstrip ⊢
    unfold pyInt
    simp only [hstrip, digitsVal_natToChars, Except.map, reduceIte]
    have h2 : -(Int.ofNat t.natAbs) = t := by
      simp only [Int.ofNat_eq_coe]; omega
    rw [h2]
  · have h1 : intToChars t = natToChars t.toNat := by
      rw [intToChars, if_neg ht]
    obtain ⟨c, cs, hc⟩ := List.exists_cons_of_ne_nil (natToChars_ne_nil t.toNat)
    have hcd : isDigitChar c = true := by
      apply natToChars_digits t.toNat
      rw [hc]; exact List.mem_cons_self _ _
    have hns := digit_not_special c hcd
    have hdv : digitsVal (c :: cs) = .ok t.toNat := by
      rw [← hc, digitsVal_natToChars]
    rw [h1, hc] at hstrip ⊢
    unfold pyInt
    simp only [hstrip]
    rw [if_neg hns.2.2.1, if_neg hns.2.2.2, hdv]
    simp only [Except.map]
    have h2 : Int.ofNat t.toNat = t := by
      simp only [Int.ofNat_eq_coe]; omega
    rw [h2]

theorem parseHeaderParts_header (ds sig : List Char)
    (hds : ∀ c ∈ ds, isPySpace c = false ∧ c ≠ ',')
    (hsig : ∀ c ∈ sig, c ∈ hexAlphabet) :
    parseHeaderParts (('t' :: '=' :: ds) ++ (',' :: 'v' :: '1' :: '=' :: sig)) =
      [(['t'], ds), (['v', '1'], sig)] := by
  have hx1 : (',' : Char) ∉ ('t' :: '=' :: ds) := by
    intro hm
    simp only [List.mem_cons] at hm
    rcases hm with h | h | h
    · exact (by decide : (',' : Char) ≠ 't') h
    · exact (by decide : (',' : Char) ≠ '=') h
    · exact (hds _ h).2 rfl
  have hx2 : (',' : Char) ∉ ('v' :: '1' :: '=' :: sig) := by
    intro hm
    simp only [List.mem_cons] at hm
    rcases hm with h | h | h | h
    · exact (by decide : (',' : Char) ≠ 'v') h
    · exact (by decide : (',' : Char) ≠ '1') h
    · exact (by decide : (',' : Char) ≠ '=') h
    · exact ((hex_char_plain _ (hsig _ h)).2) rfl
  have hstrip_ds : pyStrip ds = ds := pyStrip_of_plain _ (fun c hc => (hds c hc).1)
  have hstrip_sig : pyStrip sig = sig :=
    pyStrip_of_plain _ (fun c hc => (hex_char_plain _ (hsig _ hc)).1)
  unfold parseHeaderParts
  rw [splitOnChar_append ',' ('t' :: '=' :: ds) _ hx1, splitOnChar_of_not_mem _ _ hx2]
  simp only [List.foldl_cons, List.foldl_nil]
  rw [show (('t' :: '=' :: ds).contains '=') = true from rfl,
    show (('v' :: '1' :: '=' :: sig).contains '=') = true from rfl]
  simp only [if_pos]
  rw [show splitFirst '=' ('t' :: '=' :: ds) = (['t'], ds) from rfl,
    show splitFirst '=' ('v' :: '1' :: '=' :: sig) = (['v', '1'], sig) from rfl]
  simp only [hstrip_ds, hstrip_sig]
  rw [show pyStrip ['t'] = ['t'] from rfl, show pyStrip ['v', '1'] = ['v', '1'] from rfl]
  rfl

theorem verify_body_roundtrip (payload : List Nat) (secret : String) (t now tol : Int)
    (h : ((now - t).natAbs : Int) ≤ tol) :
    verify_body payload (create_webhook_signature_header payload secret t) secret tol now =
      .ok (true, none) := by
  have hhdr : create_webhook_signature_header payload secret t =
      ('t' :: '=' :: intToChars t) ++
        (',' :: 'v' :: '1' :: '=' :: generate_signature (tsDotBytes t ++ payload) secret) := rfl
  have hparse := parseHeaderParts_header (intToChars t)
    (generate_signature (tsDotBytes t ++ payload) secret)
    (intToChars_plain t)
    (hexOfBytes_chars _)
  obtain ⟨c, cs, hc⟩ := List.exists_cons_of_ne_nil (intToChars_ne_nil t)
  obtain ⟨c2, cs2, hc2⟩ :=
    List.exists_cons_of_ne_nil (generate_signature_ne_nil (tsDotBytes t ++ payload) secret)
  have htruthy1 : pyTruthyStr (some (intToChars t)) = true := by
    rw [hc]; rfl
  have htruthy2 : pyTruthyStr
      (some (generate_signature (tsDotBytes t ++ payload) secret)) = true := by
    rw [hc2]; rfl
  unfold verify_body
  rw [hhdr]
  simp only [hparse]
  rw [show dictGet ['t'] [(['t'], intToChars t),
      (['v', '1'], generate_signature (tsDotBytes t ++ payload) secret)] =
      some (intToChars t) from rfl]
  rw [show dictGet ['v', '1'] [(['t'], intToChars t),
      (['v', '1'], generate_signature (tsDotBytes t ++ payload) secret)] =
      some (generate_signature (tsDotBytes t ++ payload) secret) from rfl]
  simp only [htruthy1, htruthy2, Bool.not_true, Bool.or_self, Bool.false_eq_true, if_false,
    Option.getD_some, pyInt_intToChars]
  rw [if_neg (by omega)]
  simp only [verify_signature, beq_self_eq_true, Bool.not_true, Bool.false_eq_true, if_false]

/-- A freshly signed header verifies (general form, any tolerance). -/
theorem verify_header_roundtrip (payload : List Nat) (secret : String) (t now tol : Int)
    (h : ((now - t).natAbs : Int) ≤ tol) :
    verify_webhook_signature_header payload
      (create_webhook_signature_header payload secret t) secret tol now = (true, none) := by
  unfold verify_webhook_signature_header
  rw [verify_body_roundtrip payload secret t now tol h]

/-- If the previous secret verifies the header, `verify_webhook_with_secrets`
accepts, whatever the current secret says. -/
theorem verify_with_secrets_of_previous (payload : List Nat) (header : List Char)
    (cur ps : String) (tol now : Int) (hps : ps ≠ "")
    (h : verify_webhook_signature_header payload header ps tol now = (true, none)) :
    verify_webhook_with_secrets payload header cur (some ps) tol now = (true, none) := by
  unfold verify_webhook_with_secrets
  rcases hf : verify_webhook_signature_header payload header cur tol now with ⟨b, e⟩
  cases b
  · simp only [hf, Bool.false_eq_true, if_false, hps, ne_eq, not_false_eq_true, if_true, h,
      if_pos]
  · simp only [hf, if_true]

/-- Every run of the `try:` body of `verify_webhook_signature_header` either
succeeds, returns a `(False, message)` value, or raises. -/
theorem verify_body_shape (payload : List Nat) (header : List Char) (secret : String)
    (tol now : Int) :
    verify_body payload header secret tol now = .ok (true, none) ∨
    (∃ m, verify_body payload header secret tol now = .ok (false, some m)) ∨
    (∃ e, verify_body payload header secret tol now = .error e) := by
  unfold verify_body
  dsimp only
  split
  · right; left; exact ⟨_, rfl⟩
  · split
    · right; right; exact ⟨_, rfl⟩
    · split
      · right; left; exact ⟨_, rfl⟩
      · split
        · right; left; exact ⟨_, rfl⟩
        · left; rfl

/-- C9: for every payload and secret, verifying a header freshly produced by
`create_webhook_signature_header` with the same payload and secret via
`verify_webhook_signature_header` succeeds - returns `(True, None)` -
provided verification happens within the timestamp tolerance of the signing
timestamp. -/
theorem claim_C9_sign_verify_roundtrip (payload : List Nat) (secret : String) (t now : Int)
    (h : ((now - t).natAbs : Int) ≤ TIMESTAMP_TOLERANCE_SECONDS) :
    verify_webhook_signature_header payload
      (create_webhook_signature_header payload secret t) secret
      TIMESTAMP_TOLERANCE_SECONDS now = (true, none) :=
  verify_header_roundtrip payload secret t now TIMESTAMP_TOLERANCE_SECONDS h

/-- Witness for C9 at payload `[1, 2, 3]`, secret `"whsec_demo"`, signing and
verification both at time 1000. -/
theorem claim_C9_witness :
    ((((1000 : Int) - 1000).natAbs : Int) ≤ TIMESTAMP_TOLERANCE_SECONDS) ∧
    verify_webhook_signature_header [1, 2, 3]
      (create_webhook_signature_header [1, 2, 3] "whsec_demo" 1000) "whsec_demo"
      TIMESTAMP_TOLERANCE_SECONDS 1000 = (true, none) :=
  ⟨by decide, claim_C9_sign_verify_roundtrip [1, 2, 3] "whsec_demo" 1000 1000 (by decide)⟩

/-- C10: `verify_webhook_signature_header` never raises: for every payload,
signature header (including headers missing `t` or `v1`, headers with a
non-integer timestamp, and arbitrary garbage), secret, tolerance and clock it
returns a pair - `(True, None)` on success, otherwise `(False, message)` with
a non-null message; the `except ValueError` / `except Exception` clauses
catch every exception of the body. -/
theorem claim_C10_verify_never_raises (payload : List Nat) (header : List Char)
    (secret : String) (tol now : Int) :
    verify_webhook_signature_header payload header secret tol now = (true, none) ∨
    ((verify_webhook_signature_header payload header secret tol now).1 = false ∧
     (verify_webhook_signature_header payload header secret tol now).2 ≠ none) := by
  rcases verify_body_shape payload header secret tol now with h | ⟨m, h⟩ | ⟨e, h⟩
  · left
    unfold verify_webhook_signature_header
    rw [h]
  · right
    unfold verify_webhook_signature_header
    rw [h]
    exact ⟨rfl, by simp⟩
  · right
    unfold verify_webhook_signature_header
    rw [h]
    cases e <;> exact ⟨rfl, by simp⟩

/- ### Partner rows (`app/db/models.py`) and `app/db/repositories/partner_repo.py` -/

/-- `PartnerStatus` enum of `app/schemas/partner.py`. -/
inductive PartnerStatus where
  | active
  | inactive
  | suspended
deriving DecidableEq

/-- A `partners` row.  The opaque descriptive columns (`description`,
`contact_email`, `created_at`) are not read by any verified operation and are
omitted. -/
structure Partner where
  id : Nat
  name : String
  webhook_url : String
  events : List String
  secret : String
  previous_secret : Option String
  previous_secret_valid_until : Option Int
  status : PartnerStatus
  total_webhooks_sent : Nat
  last_webhook_at : Option Int
  updated_at : Option Int
deriving DecidableEq

/-- `PartnerRepository.get_by_id`: first row with the id (ids are the primary
key). -/
def PartnerRepository.get_by_id (partners : List Partner) (partner_id : Nat) :
    Option Partner :=
  partners.find? (fun p => p.id == partner_id)

/-- `PartnerRepository.rotate_secret(partner_id, grace_period_hours)`: move
the current secret to `previous_secret` with expiry `now + grace` and install
the (drawn) new secret; returns the refreshed row and the new secret, or
`(None, "")` when the partner does not exist.  `new_secret` stands for the
`generate_secret()` draw. -/
def PartnerRepository.rotate_secret (partners : List Partner) (partner_id : Nat)
    (grace_period_hours : Int) (new_secret : String) (now : Int) :
    List Partner × Option Partner × String :=
  match PartnerRepository.get_by_id partners partner_id with
  | none => (partners, none, "")
  | some partner =>
    let partners2 := partners.map (fun p =>
      if p.id == partner_id then
        { p with
          previous_secret := some partner.secret,
          previous_secret_valid_until := some (now + grace_period_hours * 3600),
          secret := new_secret,
          updated_at := some now }
      else p)
    (partners2, PartnerRepository.get_by_id partners2 partner_id, new_secret)

/-- `PartnerRepository.verify_secret(partner_id, secret)`: constant-time match
against the current secret, else against a non-empty previous secret strictly
before its expiry. -/
def PartnerRepository.verify_secret (partners : List Partner) (partner_id : Nat)
    (secret : String) (now : Int) : Bool :=
  match PartnerRepository.get_by_id partners partner_id with
  | none => false
  | some partner =>
    if partner.secret == secret then true
    else
      match partner.previous_secret, partner.previous_secret_valid_until with
      | some ps, some valid_until =>
        (ps != "") && decide (valid_until > now) && (ps == secret)
      | _, _ => false

/-- Refetching after an id-keyed bulk `UPDATE` returns the updated row. -/
theorem find_map_update {α : Type} (key : α → Nat) (i : Nat) (g : α → α) (l : List α)
    (w : α) (hg : ∀ x, key (g x) = key x)
    (h : l.find? (fun x => key x == i) = some w) :
    (l.map (fun x => if key x == i then g x else x)).find? (fun x => key x == i) =
      some (g w) := by
  induction l with
  | nil => simp at h
  | cons a t ih =>
    by_cases ha : (key a == i) = true
    · have hw : a = w := by simpa [List.find?_cons, ha] using h
      subst hw
      rw [List.map_cons, if_pos ha, List.find?_cons]
      have hpred : (key (g a) == i) = true := by rw [hg]; exact ha
      rw [hpred]
    · have h2 : t.find? (fun x => key x == i) = some w := by
        simpa [List.find?_cons, ha] using h
      have h3 := ih h2
      rw [List.map_cons, if_neg ha, List.find?_cons]
      have hpred : (key a == i) = false := by simpa using ha
      rw [hpred]
      exact h3

/-- Concrete partner row used in the C4 counterexample. -/
def c4Partner : Partner :=
  { id := 1, name := "acme", webhook_url := "https://partner.example/hook",
    events := ["payment.succeeded"], secret := "whsec_old", previous_secret := none,
    previous_secret_valid_until := none, status := .active, total_webhooks_sent := 0,
    last_webhook_at := none, updated_at := none }

/-- C4 counterexample: `rotate_secret` at time 1000 with a 24-hour grace
period sets the old secret's expiry to `1000 + 24·3600 = 87400`; yet at
`now = 87400` - at (hence not strictly before) `rotation_time + g` - a header
signed with the old secret still verifies via `verify_webhook_with_secrets`,
because that function consults no expiry.  This refutes the claim's "fails
verification at any time at or after `rotation_time + g`". -/
theorem claim_C4_counterexample :
    (PartnerRepository.rotate_secret [c4Partner] 1 24 "whsec_new" 1000).2.1.map
        (fun p => (p.secret, p.previous_secret, p.previous_secret_valid_until)) =
      some ("whsec_new", some "whsec_old", some 87400) ∧
    (1000 + 24 * 3600 : Int) ≤ 87400 ∧
    verify_webhook_with_secrets [10, 20]
      (create_webhook_signature_header [10, 20] "whsec_old" 87400)
      "whsec_new" (some "whsec_old") TIMESTAMP_TOLERANCE_SECONDS 87400 = (true, none) := by
  refine ⟨by decide, by decide, ?_⟩
  exact verify_with_secrets_of_previous _ _ _ _ _ _ (by decide)
    (verify_header_roundtrip [10, 20] "whsec_old" 87400 87400 TIMESTAMP_TOLERANCE_SECONDS
      (by decide))

/-- C4 (amended): after `rotate_secret(pid, g)` at `rot_time`, (a) the row
holds the old secret as `previous_secret` with expiry `rot_time + g·3600`;
(b) a header signed with the old secret verifies via
`verify_webhook_with_secrets` whenever its timestamp is within tolerance of
the verification time - at ANY such time, before or after the expiry, since
that function checks no expiry; (c) the grace window is enforced only by
`PartnerRepository.verify_secret` on raw secrets, which accepts the old
secret strictly before `rot_time + g·3600` and rejects it at or after. -/
theorem claim_C4_rotation_grace (partners : List Partner) (pid : Nat) (p : Partner)
    (g : Int) (nsec : String) (rot_time : Int) (payload : List Nat) (t now : Int)
    (hfind : PartnerRepository.get_by_id partners pid = some p)
    (hps : p.secret ≠ "")
    (hnew : p.secret ≠ nsec)
    (htol : ((now - t).natAbs : Int) ≤ TIMESTAMP_TOLERANCE_SECONDS) :
    (PartnerRepository.rotate_secret partners pid g nsec rot_time).2.1 =
      some { p with
        previous_secret := some p.secret,
        previous_secret_valid_until := some (rot_time + g * 3600),
        secret := nsec,
        updated_at := some rot_time } ∧
    verify_webhook_with_secrets payload (create_webhook_signature_header payload p.secret t)
      nsec (some p.secret) TIMESTAMP_TOLERANCE_SECONDS now = (true, none) ∧
    (∀ n2 : Int, n2 < rot_time + g * 3600 →
      PartnerRepository.verify_secret
        (PartnerRepository.rotate_secret partners pid g nsec rot_time).1 pid p.secret n2 =
        true) ∧
    (∀ n2 : Int, rot_time + g * 3600 ≤ n2 →
      PartnerRepository.verify_secret
        (PartnerRepository.rotate_secret partners pid g nsec rot_time).1 pid p.secret n2 =
        false) := by
  have hrot : PartnerRepository.rotate_secret partners pid g nsec rot_time =
      (partners.map (fun q =>
        if q.id == pid then
          { q with
            previous_secret := some p.secret,
            previous_secret_valid_until := some (rot_time + g * 3600),
            secret := nsec,
            updated_at := some rot_time }
        else q),
       PartnerRepository.get_by_id (partners.map (fun q =>
        if q.id == pid then
          { q with
            previous_secret := some p.secret,
            previous_secret_valid_until := some (rot_time + g * 3600),
            secret := nsec,
            updated_at := some rot_time }
        else q)) pid, nsec) := by
    unfold PartnerRepository.rotate_secret
    rw [hfind]
  have hupd : PartnerRepository.get_by_id (partners.map (fun q =>
      if q.id == pid then
        { q with
          previous_secret := some p.secret,
          previous_secret_valid_until := some (rot_time + g * 3600),
          secret := nsec,
          updated_at := some rot_time }
      else q)) pid =
      some { p with
        previous_secret := some p.secret,
        previous_secret_valid_until := some (rot_time + g * 3600),
        secret := nsec,
        updated_at := some rot_time } := by
    unfold PartnerRepository.get_by_id at hfind ⊢
    exact find_map_update (fun q => q.id) pid
      (fun q =>
        { q with
          previous_secret := some p.secret,
          previous_secret_valid_until := some (rot_time + g * 3600),
          secret := nsec,
          updated_at := some rot_time })
      partners p (fun x => rfl) hfind
  have hne : (nsec == p.secret) = false := by
    simp only [beq_eq_false_iff_ne, ne_eq]
    exact fun he => hnew he.symm
  refine ⟨?_, ?_, ?_, ?_⟩
  · rw [hrot]
    exact hupd
  · exact verify_with_secrets_of_previous _ _ _ _ _ _ hps
      (verify_header_roundtrip payload p.secret t now TIMESTAMP_TOLERANCE_SECONDS htol)
  · intro n2 h2
    rw [hrot]
    unfold PartnerRepository.verify_secret
    rw [hupd]
    dsimp only
    simp only [hne, Bool.false_eq_true, if_false]
    simp only [Bool.and_eq_true]
    refine ⟨⟨?_, ?_⟩, ?_⟩
    · exact bne_iff_ne.mpr hps
    · rw [decide_eq_true_eq]
      omega
    · exact beq_self_eq_true p.secret
  · intro n2 h2
    rw [hrot]
    unfold PartnerRepository.verify_secret
    rw [hupd]
    dsimp only
    simp only [hne, Bool.false_eq_true, if_false]
    have hlt : (decide (rot_time + g * 3600 > n2)) = false := by
      rw [decide_eq_false_iff_not]
      omega
    simp [hlt]

/-- Witness for the C4 theorem at a concrete partner, 24h grace from time 0,
header timestamp and verification time both 100000 (past the window end
86400). -/
theorem claim_C4_witness :
    PartnerRepository.get_by_id [c4Partner] 1 = some c4Partner ∧
    c4Partner.secret ≠ "" ∧
    c4Partner.secret ≠ "whsec_new" ∧
    ((((100000 : Int) - 100000).natAbs : Int) ≤ TIMESTAMP_TOLERANCE_SECONDS) ∧
    verify_webhook_with_secrets [7]
      (create_webhook_signature_header [7] c4Partner.secret 100000)
      "whsec_new" (some c4Partner.secret) TIMESTAMP_TOLERANCE_SECONDS 100000 = (true, none) :=
  ⟨by decide, by decide, by decide, by decide,
    (claim_C4_rotation_grace [c4Partner] 1 c4Partner 24 "whsec_new" 0 [7] 100000 100000
      (by decide) (by decide) (by decide) (by decide)).2.1⟩

/- ### Payment rows (`app/db/models.py`) and `app/schemas/payment.py` -/

/-- `PaymentStatus` enum of `app/schemas/payment.py`. -/
inductive PaymentStatus where
  | pending
  | processing
  | succeeded
  | failed
  | canceled
  | refunded
deriving DecidableEq

/-- `.value` of a `PaymentStatus` member. -/
def statusValue : PaymentStatus → String
  | .pending => "pending"
  | .processing => "processing"
  | .succeeded => "succeeded"
  | .failed => "failed"
  | .canceled => "canceled"
  | .refunded => "refunded"

/-- A JSONB metadata value.  Monetary amounts are carried as integers in the
minor currency unit; the `float(...)` coercion applied to the refund amount
is value-preserving in this model. -/
inductive MetaVal where
  | str (s : String)
  | num (n : Int)
  | null
deriving DecidableEq

/-- A `payments` row.  The opaque reference columns (`user_id`,
`campaign_id`, `animal_id`, `refugio_id`, `causa_urgente_id`, payer fields),
which no verified operation reads, are omitted; ids are `Nat` stand-ins for
UUIDs and amounts are integers in the minor unit. -/
structure Payment where
  id : Nat
  amount : Int
  currency : String
  status : PaymentStatus
  payment_type : String
  provider : String
  provider_payment_id : Option String
  checkout_url : Option String
  success_url : Option String
  cancel_url : Option String
  description : Option String
  payment_metadata : List (String × MetaVal)
  failure_reason : Option String
  idempotency_key : Option String
  created_at : Int
  updated_at : Option Int
deriving DecidableEq

/-- A Python object as it occurs in the metadata-handling expressions of
`payment_service.py`.  The SQLAlchemy model maps the JSONB column as
`payment_metadata` (`models.py:137-141`) because the attribute name
`metadata` is reserved by the declarative base; consequently the Python
expression `payment.metadata` resolves to the class-level SQLAlchemy
`MetaData` registry object - not the row's metadata dict. -/
inductive PyObj where
  | pyDict (entries : List (String × MetaVal))
  | sqlaMetaData
deriving DecidableEq

/-- The value of the Python attribute access `payment.metadata` on a
`Payment` ORM instance: the SQLAlchemy `MetaData` registry (see `PyObj`). -/
def Payment.metadata_attr (_p : Payment) : PyObj := .sqlaMetaData

/-- Python truthiness of the objects above: a dict is truthy iff non-empty;
the `MetaData` registry defines no `__bool__`/`__len__` that would make it
falsy (it holds the three mapped tables), so it is truthy. -/
def PyObj.truthy : PyObj → Bool
  | .pyDict d => !d.isEmpty
  | .sqlaMetaData => true

/-- Python `a or b`. -/
def pyObjOr (a b : PyObj) : PyObj := if a.truthy then a else b

/-- The `**`-unpacking of an object in a dict display: a mapping yields its
entries, anything else raises `TypeError` (CPython: "argument of type ... is
not a mapping"). -/
def pyMapping : PyObj → Except PyErr (List (String × MetaVal))
  | .pyDict d => .ok d
  | .sqlaMetaData => .error (.typeError "MetaData object is not a mapping")

/-- pydantic validation of a `dict[str, Any]` field: accepts a dict, rejects
any other object (such as the `MetaData` registry) with a `ValidationError`. -/
def pydanticDict : PyObj → Except PyErr (List (String × MetaVal))
  | .pyDict d => .ok d
  | .sqlaMetaData => .error (.validationError "Input should be a valid dictionary")

/-- Dict-literal insertion: overwrite an existing key in place, else append
(CPython insertion order). -/
def metaUpsert (entries : List (String × MetaVal)) (k : String) (v : MetaVal) :
    List (String × MetaVal) :=
  match entries with
  | [] => [(k, v)]
  | (k0, v0) :: rest =>
    if k0 == k then (k, v) :: rest else (k0, v0) :: metaUpsert rest k v

/-- `PaymentResultStatus` of `app/adapters/base.py`. -/
inductive PaymentResultStatus where
  | success
  | pending
  | failed
  | requires_action
deriving DecidableEq

/-- The `PaymentResult` dataclass of `app/adapters/base.py` (fields the
orchestrator reads). -/
structure PaymentResult where
  status : PaymentResultStatus
  provider : String
  provider_payment_id : String
  amount : Int
  currency : String
  client_secret : Option String
  checkout_url : Option String
  failure_reason : Option String
deriving DecidableEq

/-- The `RefundResult` dataclass of `app/adapters/base.py`. -/
structure RefundResult where
  status : PaymentResultStatus
  provider : String
  provider_refund_id : String
  provider_payment_id : String
  amount : Int
  currency : String
  failure_reason : Option String
deriving DecidableEq

/-- `PaymentCreateRequest` of `app/schemas/payment.py` (fields the
orchestrator reads; the opaque reference ids are omitted as in `Payment`). -/
structure PaymentCreateRequest where
  amount : Int
  currency : String
  payment_type : String
  payer_email : Option String
  payer_name : Option String
  description : Option String
  metadata : Option (List (String × MetaVal))
  success_url : Option String
  cancel_url : Option String
deriving DecidableEq

/-- `PaymentIntentResponse` of `app/schemas/payment.py`. -/
structure PaymentIntentResponse where
  payment_id : Nat
  client_secret : Option String
  checkout_url : Option String
  status : PaymentStatus
  provider : String
deriving DecidableEq

/-- `PaymentResponse` of `app/schemas/payment.py` (fields carried by the
embedding). -/
structure PaymentResponse where
  id : Nat
  amount : Int
  currency : String
  status : PaymentStatus
  payment_type : String
  provider : String
  provider_payment_id : Option String
  checkout_url : Option String
  description : Option String
  metadata : List (String × MetaVal)
  failure_reason : Option String
  idempotency_key : Option String
  created_at : Int
  updated_at : Option Int
deriving DecidableEq

/- ### `app/db/repositories/payment_repo.py` -/

/-- `PaymentRepository.get_by_id`. -/
def PaymentRepository.get_by_id (payments : List Payment) (payment_id : Nat) :
    Option Payment :=
  payments.find? (fun p => p.id == payment_id)

/-- `PaymentRepository.get_by_provider_id`. -/
def PaymentRepository.get_by_provider_id (payments : List Payment)
    (provider_payment_id : String) : Option Payment :=
  payments.find? (fun p => p.provider_payment_id == some provider_payment_id)

/-- `PaymentRepository.get_by_idempotency_key`. -/
def PaymentRepository.get_by_idempotency_key (payments : List Payment)
    (idempotency_key : String) : Option Payment :=
  payments.find? (fun p => p.idempotency_key == some idempotency_key)

/-- `PaymentRepository.create`: insert a new `pending` row.  `new_id` stands
for the `uuid4()` default and `now` for the server-side `created_at`. -/
def PaymentRepository.create (payments : List Payment) (request : PaymentCreateRequest)
    (provider : String) (idempotency_key : Option String) (new_id : Nat) (now : Int) :
    List Payment :=
  payments ++ [{
    id := new_id,
    amount := request.amount,
    currency := request.currency.toLower,
    status := .pending,
    payment_type := request.payment_type,
    provider := provider,
    provider_payment_id := none,
    checkout_url := none,
    success_url := request.success_url,
    cancel_url := request.cancel_url,
    description := request.description,
    payment_metadata := request.metadata.getD [],
    failure_reason := none,
    idempotency_key := idempotency_key,
    created_at := now,
    updated_at := none }]

/-- An optional `UPDATE ... SET` argument: set only when not `None`. -/
def setIfSome {α : Type} (arg cur : Option α) : Option α :=
  match arg with
  | some v => some v
  | none => cur

/-- `PaymentRepository.update_status`: unconditional id-keyed `UPDATE`
(status, `updated_at`, and each optional column when passed), then refetch. -/
def PaymentRepository.update_status (payments : List Payment) (payment_id : Nat)
    (status : PaymentStatus) (provider_payment_id : Option String)
    (checkout_url : Option String) (failure_reason : Option String)
    (metadata : Option (List (String × MetaVal))) (now : Int) :
    List Payment × Option Payment :=
  let payments2 := payments.map (fun p =>
    if p.id == payment_id then
      { p with
        status := status,
        updated_at := some now,
        provider_payment_id := setIfSome provider_payment_id p.provider_payment_id,
        checkout_url := setIfSome checkout_url p.checkout_url,
        failure_reason := setIfSome failure_reason p.failure_reason,
        payment_metadata := metadata.getD p.payment_metadata }
    else p)
  (payments2, PaymentRepository.get_by_id payments2 payment_id)

/- ### `app/services/payment_service.py` -/

/-- `PaymentService._to_response`: builds a `PaymentResponse` from the row.
The source passes `payment.metadata or {}` as the `metadata` field - the
reserved SQLAlchemy attribute, which is truthy, so the `MetaData` registry
reaches pydantic and fails `dict[str, Any]` validation. -/
def PaymentService.to_response (p : Payment) : Except PyErr PaymentResponse :=
  match pydanticDict (pyObjOr (Payment.metadata_attr p) (.pyDict [])) with
  | .error e => .error e
  | .ok md => .ok {
      id := p.id,
      amount := p.amount,
      currency := p.currency,
      status := p.status,
      payment_type := p.payment_type,
      provider := p.provider,
      provider_payment_id := p.provider_payment_id,
      checkout_url := p.checkout_url,
      description := p.description,
      metadata := md,
      failure_reason := p.failure_reason,
      idempotency_key := p.idempotency_key,
      created_at := p.created_at,
      updated_at := p.updated_at }

/-- The `valid_transitions` table of `PaymentService.update_payment_status`. -/
def valid_transitions : PaymentStatus → List PaymentStatus
  | .pending => [.processing, .succeeded, .failed, .canceled]
  | .processing => [.succeeded, .failed]
  | .succeeded => [.refunded]
  | .failed => []
  | .canceled => []
  | .refunded => []

/-- `PaymentService.update_payment_status`: look up the payment, validate the
transition against the table, persist via the repository, and convert the
refreshed row to a response. -/
def PaymentService.update_payment_status (payments : List Payment) (payment_id : Nat)
    (status : PaymentStatus) (failure_reason : Option String)
    (metadata : Option (List (String × MetaVal))) (now : Int) :
    List Payment × Except PyErr PaymentResponse :=
  match PaymentRepository.get_by_id payments payment_id with
  | none => (payments, .error (.notFound payment_id))
  | some payment =>
    if (valid_transitions payment.status).contains status then
      let r := PaymentRepository.update_status payments payment_id status none none
        failure_reason metadata now
      match r.2 with
      | some updated => (r.1, PaymentService.to_response updated)
      | none => (r.1, .error (.attributeError "NoneType object has no attribute"))
    else
      (payments, .error (.invalidState payment_id (statusValue payment.status)
        ("transition to " ++ statusValue status)))

/-- Decidable equality of `Except` values, for evaluating outcomes at
concrete inputs. -/
instance {ε α : Type} [DecidableEq ε] [DecidableEq α] : DecidableEq (Except ε α) :=
  fun a b =>
    match a, b with
    | .error e1, .error e2 =>
      match decEq e1 e2 with
      | isTrue h => isTrue (congrArg Except.error h)
      | isFalse h => isFalse (fun hh => h (by cases hh; rfl))
    | .ok v1, .ok v2 =>
      match decEq v1 v2 with
      | isTrue h => isTrue (congrArg Except.ok h)
      | isFalse h => isFalse (fun hh => h (by cases hh; rfl))
    | .error _, .ok _ => isFalse (fun hh => by cases hh)
    | .ok _, .error _ => isFalse (fun hh => by cases hh)

/-- Outcome of one `PaymentService.create_payment` call: the resulting
ledger, whether the provider was invoked, and the returned intent or raised
exception. -/
structure CreateOutcome where
  ledger : List Payment
  providerCalled : Bool
  result : Except PyErr PaymentIntentResponse
deriving DecidableEq

/-- The durable idempotency pre-check of `PaymentService.create_payment`:
`if idempotency_key:` (Python truthiness - the empty string skips the check)
followed by the ledger lookup. -/
def idempotencyLookup (payments : List Payment) (idempotency_key : Option String) :
    Option Payment :=
  match idempotency_key with
  | some k =>
    if k = "" then none else PaymentRepository.get_by_idempotency_key payments k
  | none => none

/-- `PaymentService.create_payment`: durable idempotency check, insert a
`pending` row, call the provider (its behaviour is the `provider_result`
parameter), map the provider status and update the row; on a provider
exception mark the row `failed` and raise `PaymentProviderError`. -/
def PaymentService.create_payment (payments : List Payment)
    (request : PaymentCreateRequest) (idempotency_key : Option String)
    (provider_name : String) (provider_result : Except PyErr PaymentResult)
    (new_id : Nat) (now : Int) : CreateOutcome :=
  match idempotencyLookup payments idempotency_key with
  | some payment =>
    { ledger := payments, providerCalled := false,
      result := .ok {
        payment_id := payment.id,
        client_secret := none,
        checkout_url := payment.checkout_url,
        status := payment.status,
        provider := payment.provider } }
  | none =>
    let l1 := PaymentRepository.create payments request provider_name idempotency_key
      new_id now
    match provider_result with
    | .error e =>
      let r := PaymentRepository.update_status l1 new_id .failed none none
        (some e.str) none now
      { ledger := r.1, providerCalled := true,
        result := .error (.providerError provider_name e.str) }
    | .ok result =>
      let status := if result.status = .failed then PaymentStatus.failed
        else if result.status = .success then PaymentStatus.succeeded
        else PaymentStatus.pending
      let r := PaymentRepository.update_status l1 new_id status
        (some result.provider_payment_id) result.checkout_url result.failure_reason
        none now
      { ledger := r.1, providerCalled := true,
        result := .ok {
          payment_id := new_id,
          client_secret := result.client_secret,
          checkout_url := result.checkout_url,
          status := status,
          provider := provider_name } }

/-- The `try:` block of `PaymentService.refund_payment` after the provider
call returned `refund_result`: raise on provider-reported failure, merge the
refund metadata into `payment.metadata` (the reserved SQLAlchemy attribute -
see `Payment.metadata_attr`), persist `refunded`, and build the response.
Returns the session state alongside the outcome. -/
def PaymentService.refund_try (payments : List Payment) (payment : Payment)
    (reason : Option String) (refund_result : RefundResult) (now : Int) :
    List Payment × Except PyErr PaymentResponse :=
  if refund_result.status = .failed then
    (payments, .error (.providerError payment.provider
      (refund_result.failure_reason.getD "Refund failed")))
  else
    match pyMapping (pyObjOr (Payment.metadata_attr payment) (.pyDict [])) with
    | .error e => (payments, .error e)
    | .ok base =>
      let newMeta := metaUpsert (metaUpsert (metaUpsert base
        "refund_id" (.str refund_result.provider_refund_id))
        "refund_amount" (.num refund_result.amount))
        "refund_reason" (match reason with | some s => .str s | none => .null)
      let r := PaymentRepository.update_status payments payment.id .refunded none none
        none (some newMeta) now
      match r.2 with
      | some updated => (r.1, PaymentService.to_response updated)
      | none => (r.1, .error (.attributeError "NoneType object has no attribute"))

/-- `PaymentService.refund_payment`: requires a `succeeded` payment with a
`provider_payment_id`; calls the provider (behaviour given by
`provider_refund`); the `except Exception` clause rewraps any exception of
the try block as `PaymentProviderError`.  The unused `amount` argument is
forwarded to the provider only. -/
def PaymentService.refund_payment (payments : List Payment) (payment_id : Nat)
    (_amount : Option Int) (reason : Option String)
    (provider_refund : Except PyErr RefundResult) (now : Int) :
    List Payment × Except PyErr PaymentResponse :=
  match PaymentRepository.get_by_id payments payment_id with
  | none => (payments, .error (.notFound payment_id))
  | some payment =>
    if payment.status ≠ PaymentStatus.succeeded then
      (payments, .error (.invalidState payment_id (statusValue payment.status) "refund"))
    else
      match payment.provider_payment_id with
      | none =>
        (payments, .error (.providerError payment.provider
          "No provider payment ID for refund"))
      | some _ =>
        match provider_refund with
        | .error e => (payments, .error (.providerError payment.provider e.str))
        | .ok refund_result =>
          let r := PaymentService.refund_try payments payment reason refund_result now
          match r.2 with
          | .ok resp => (r.1, .ok resp)
          | .error e => (r.1, .error (.providerError payment.provider e.str))

/-- Appending a fresh row and searching for its key finds exactly it. -/
theorem find_append_fresh {α : Type} (key : α → Nat) (i : Nat) (l : List α) (x : α)
    (hfresh : ∀ q ∈ l, key q ≠ i) (hx : key x = i) :
    (l ++ [x]).find? (fun q => key q == i) = some x := by
  induction l with
  | nil =>
    simp only [List.nil_append, List.find?_cons]
    rw [show (key x == i) = true from beq_iff_eq.mpr hx]
  | cons a t ih =>
    have ha : (key a == i) = false := by
      simp only [beq_eq_false_iff_ne, ne_eq]
      exact hfresh a (List.mem_cons_self a t)
    rw [List.cons_append, List.find?_cons, ha]
    exact ih (fun q hq => hfresh q (List.mem_cons_of_mem a hq))

/-- `PaymentRepository.update_status` refetches exactly the updated row. -/
theorem update_status_refetch (payments : List Payment) (payment_id : Nat)
    (status : PaymentStatus) (ppid cu fr : Option String)
    (md : Option (List (String × MetaVal))) (now : Int) (w : Payment)
    (h : PaymentRepository.get_by_id payments payment_id = some w) :
    (PaymentRepository.update_status payments payment_id status ppid cu fr md now).2 =
      some { w with
        status := status,
        updated_at := some now,
        provider_payment_id := setIfSome ppid w.provider_payment_id,
        checkout_url := setIfSome cu w.checkout_url,
        failure_reason := setIfSome fr w.failure_reason,
        payment_metadata := md.getD w.payment_metadata } := by
  unfold PaymentRepository.get_by_id at h
  unfold PaymentRepository.update_status PaymentRepository.get_by_id
  exact find_map_update (fun q => q.id) payment_id
    (fun p =>
      { p with
        status := status,
        updated_at := some now,
        provider_payment_id := setIfSome ppid p.provider_payment_id,
        checkout_url := setIfSome cu p.checkout_url,
        failure_reason := setIfSome fr p.failure_reason,
        payment_metadata := md.getD p.payment_metadata })
    payments w (fun x => rfl) h

/-- The refetch of `update_status` is the lookup in its returned ledger. -/
theorem update_status_fst_get (payments : List Payment) (payment_id : Nat)
    (status : PaymentStatus) (ppid cu fr : Option String)
    (md : Option (List (String × MetaVal))) (now : Int) :
    PaymentRepository.get_by_id
      (PaymentRepository.update_status payments payment_id status ppid cu fr md now).1
      payment_id =
    (PaymentRepository.update_status payments payment_id status ppid cu fr md now).2 := rfl

/-- C6: when `create_payment` is called with an idempotency key for which a
payment already exists in the ledger, it returns that payment's id, checkout
URL and current status immediately, does not call the provider, and creates
no new row (the ledger is unchanged). -/
theorem claim_C6_idempotent_create (payments : List Payment)
    (request : PaymentCreateRequest) (k : String) (p : Payment)
    (provider_name : String) (provider_result : Except PyErr PaymentResult)
    (new_id : Nat) (now : Int)
    (hk : k ≠ "")
    (hfind : PaymentRepository.get_by_idempotency_key payments k = some p) :
    PaymentService.create_payment payments request (some k) provider_name provider_result
      new_id now =
      { ledger := payments, providerCalled := false,
        result := .ok {
          payment_id := p.id,
          client_secret := none,
          checkout_url := p.checkout_url,
          status := p.status,
          provider := p.provider } } := by
  unfold PaymentService.create_payment idempotencyLookup
  dsimp only
  rw [if_neg hk, hfind]

/-- Concrete succeeded payment row reused by the payment-service witnesses. -/
def c6Payment : Payment :=
  { id := 7, amount := 500, currency := "usd", status := .succeeded,
    payment_type := "donation", provider := "mock", provider_payment_id := some "pi_7",
    checkout_url := some "https://pay.example/7", success_url := none, cancel_url := none,
    description := none, payment_metadata := [], failure_reason := none,
    idempotency_key := some "key-1", created_at := 0, updated_at := none }

/-- Concrete create request reused by the payment-service witnesses. -/
def sampleRequest : PaymentCreateRequest :=
  { amount := 500, currency := "USD", payment_type := "donation", payer_email := none,
    payer_name := none, description := none, metadata := some [("origin", .str "web")],
    success_url := none, cancel_url := none }

/-- Witness for C6: a ledger holding `c6Payment` under key "key-1". -/
theorem claim_C6_witness :
    ("key-1" ≠ "") ∧
    PaymentRepository.get_by_idempotency_key [c6Payment] "key-1" = some c6Payment ∧
    PaymentService.create_payment [c6Payment] sampleRequest (some "key-1") "mock"
      (.ok { status := .success, provider := "mock", provider_payment_id := "pi_new",
             amount := 500, currency := "usd", client_secret := none, checkout_url := none,
             failure_reason := none }) 8 10 =
      { ledger := [c6Payment], providerCalled := false,
        result := .ok {
          payment_id := c6Payment.id,
          client_secret := none,
          checkout_url := c6Payment.checkout_url,
          status := c6Payment.status,
          provider := c6Payment.provider } } :=
  ⟨by decide, by decide,
    claim_C6_idempotent_create [c6Payment] sampleRequest "key-1" c6Payment "mock" _ 8 10
      (by decide) (by decide)⟩

/-- C7: when the provider's create call raises, `create_payment` marks the
just-created row `failed` with the error text as `failure_reason` before
surfacing `PaymentProviderError`; the row is never left `pending`. -/
theorem claim_C7_provider_error_marks_failed (payments : List Payment)
    (request : PaymentCreateRequest) (idempotency_key : Option String)
    (provider_name : String) (e : PyErr) (new_id : Nat) (now : Int)
    (hkey : idempotencyLookup payments idempotency_key = none)
    (hfresh : ∀ q ∈ payments, q.id ≠ new_id) :
    (PaymentService.create_payment payments request idempotency_key provider_name
      (.error e) new_id now).result = .error (.providerError provider_name e.str) ∧
    (PaymentService.create_payment payments request idempotency_key provider_name
      (.error e) new_id now).providerCalled = true ∧
    (PaymentRepository.get_by_id
      (PaymentService.create_payment payments request idempotency_key provider_name
        (.error e) new_id now).ledger new_id).map (fun q => q.status) =
      some PaymentStatus.failed ∧
    (PaymentRepository.get_by_id
      (PaymentService.create_payment payments request idempotency_key provider_name
        (.error e) new_id now).ledger new_id).map (fun q => q.failure_reason) =
      some (some e.str) := by
  have hnew : PaymentRepository.get_by_id
      (PaymentRepository.create payments request provider_name idempotency_key new_id now)
      new_id =
      some {
        id := new_id,
        amount := request.amount,
        currency := request.currency.toLower,
        status := .pending,
        payment_type := request.payment_type,
        provider := provider_name,
        provider_payment_id := none,
        checkout_url := none,
        success_url := request.success_url,
        cancel_url := request.cancel_url,
        description := request.description,
        payment_metadata := request.metadata.getD [],
        failure_reason := none,
        idempotency_key := idempotency_key,
        created_at := now,
        updated_at := none } := by
    unfold PaymentRepository.get_by_id PaymentRepository.create
    refine find_append_fresh (fun q => q.id) new_id payments _ hfresh ?_
    rfl
  have hupd := update_status_refetch
    (PaymentRepository.create payments request provider_name idempotency_key new_id now)
    new_id PaymentStatus.failed none none (some e.str) none now _ hnew
  unfold PaymentService.create_payment
  rw [hkey]
  dsimp only
  refine ⟨rfl, rfl, ?_, ?_⟩
  · rw [update_status_fst_get, hupd]
    rfl
  · rw [update_status_fst_get, hupd]
    rfl

/-- Witness for C7: empty ledger, provider raising `ValueError("boom")`. -/
theorem claim_C7_witness :
    idempotencyLookup [] none = none ∧
    (∀ q ∈ ([] : List Payment), q.id ≠ 3) ∧
    ((PaymentService.create_payment [] sampleRequest none "mock"
      (.error (.valueError "boom")) 3 20).result =
        .error (.providerError "mock" "boom") ∧
     (PaymentService.create_payment [] sampleRequest none "mock"
      (.error (.valueError "boom")) 3 20).providerCalled = true ∧
     (PaymentRepository.get_by_id
       (PaymentService.create_payment [] sampleRequest none "mock"
         (.error (.valueError "boom")) 3 20).ledger 3).map (fun q => q.status) =
       some PaymentStatus.failed ∧
     (PaymentRepository.get_by_id
       (PaymentService.create_payment [] sampleRequest none "mock"
         (.error (.valueError "boom")) 3 20).ledger 3).map (fun q => q.failure_reason) =
       some (some "boom")) :=
  ⟨by decide, by simp,
    claim_C7_provider_error_marks_failed [] sampleRequest none "mock" (.valueError "boom")
      3 20 (by decide) (by simp)⟩

/-- Concrete succeeded payment with prior metadata for the C1 evaluation. -/
def c1Payment : Payment :=
  { id := 1, amount := 1000, currency := "usd", status := .succeeded,
    payment_type := "donation", provider := "mock", provider_payment_id := some "pi_1",
    checkout_url := none, success_url := none, cancel_url := none, description := none,
    payment_metadata := [("campaign", .str "alpha")], failure_reason := none,
    idempotency_key := none, created_at := 0, updated_at := none }

/-- Successful provider refund result for the C1 evaluation. -/
def c1Refund : RefundResult :=
  { status := .success, provider := "mock", provider_refund_id := "re_1",
    provider_payment_id := "pi_1", amount := 1000, currency := "usd",
    failure_reason := none }

/-- C1 (code bug): for a `succeeded` payment with a provider payment id and a
provider refund reporting success, `refund_payment` does NOT transition the
payment to `refunded`: building the merged metadata evaluates
`{**(payment.metadata or {}), ...}`, where `payment.metadata` is the
reserved SQLAlchemy `MetaData` registry (the column is `payment_metadata`),
so the unpacking raises `TypeError`, the bare `except` rewraps it as
`PaymentProviderError`, and the row keeps status `succeeded` with its
metadata untouched. -/
theorem claim_C1_refund_metadata_bug :
    PaymentService.refund_payment [c1Payment] 1 none (some "requested_by_customer")
      (.ok c1Refund) 99 =
      ([c1Payment],
       .error (.providerError "mock" "MetaData object is not a mapping")) := by decide

/-- Concrete pending payment for the C3 evaluation. -/
def c3Pending : Payment :=
  { id := 1, amount := 700, currency := "usd", status := .pending,
    payment_type := "donation", provider := "mock", provider_payment_id := none,
    checkout_url := none, success_url := none, cancel_url := none, description := none,
    payment_metadata := [], failure_reason := none, idempotency_key := none,
    created_at := 0, updated_at := none }

/-- Concrete failed (terminal) payment for the C3 evaluation. -/
def c3Failed : Payment :=
  { id := 2, amount := 700, currency := "usd", status := .failed,
    payment_type := "donation", provider := "mock", provider_payment_id := none,
    checkout_url := none, success_url := none, cancel_url := none, description := none,
    payment_metadata := [], failure_reason := some "card_declined",
    idempotency_key := none, created_at := 0, updated_at := none }

/-- C3 (code bug): the transition table works - `failed → succeeded` raises
`InvalidPaymentStateError` - and a legal `pending → succeeded` transition is
persisted by the repository; but `update_payment_status` never returns
normally on the legal transition: `_to_response` passes `payment.metadata or
{}` (the truthy SQLAlchemy `MetaData` registry) as the response metadata
field, which fails pydantic dict validation, so the call raises instead of
succeeding. -/
theorem claim_C3_update_status_response_bug :
    (PaymentService.update_payment_status [c3Pending] 1 .succeeded none none 50).2 =
      .error (.validationError "Input should be a valid dictionary") ∧
    (PaymentRepository.get_by_id
      (PaymentService.update_payment_status [c3Pending] 1 .succeeded none none 50).1
      1).map (fun p => p.status) = some PaymentStatus.succeeded ∧
    (PaymentService.update_payment_status [c3Failed] 2 .succeeded none none 50).2 =
      .error (.invalidState 2 "failed" "transition to succeeded") ∧
    (PaymentService.update_payment_status [c3Failed] 2 .pending none none 50).2 =
      .error (.invalidState 2 "failed" "transition to pending") := by decide

/- ### WebhookLog rows (`app/db/models.py`) and `app/db/repositories/webhook_repo.py` -/

/-- `WebhookStatus` enum of `app/schemas/webhook.py`. -/
inductive WebhookStatus where
  | pending
  | delivered
  | failed
  | retrying
deriving DecidableEq

/-- `WebhookDirection` enum of `app/schemas/webhook.py`. -/
inductive WebhookDirection where
  | incoming
  | outgoing
deriving DecidableEq

/-- A `webhook_logs` row.  JSON payloads are carried as string key-value
lists; ids are `Nat` stand-ins for UUIDs. -/
structure WebhookLog where
  id : Nat
  direction : WebhookDirection
  event_type : String
  provider : Option String
  provider_event_id : Option String
  partner_id : Option Nat
  partner_name : Option String
  payment_id : Option Nat
  status : WebhookStatus
  attempts : Nat
  last_attempt_at : Option Int
  next_retry_at : Option Int
  payload : List (String × String)
  response : Option (List (String × String))
  error_message : Option String
  response_status_code : Option Int
  duration_ms : Option Int
  updated_at : Option Int
deriving DecidableEq

/-- `WebhookLogRepository.MAX_ATTEMPTS`. -/
def WebhookLogRepository.MAX_ATTEMPTS : Nat := 5

/-- `WebhookLogRepository.RETRY_DELAYS_MINUTES`: 1min, 5min, 30min, 2h, 12h. -/
def WebhookLogRepository.RETRY_DELAYS_MINUTES : List Int := [1, 5, 30, 120, 720]

/-- `WebhookLogRepository.get_by_id`. -/
def WebhookLogRepository.get_by_id (logs : List WebhookLog) (webhook_id : Nat) :
    Option WebhookLog :=
  logs.find? (fun w => w.id == webhook_id)

/-- `WebhookLogRepository.get_by_provider_event_id` (the dedup lookup). -/
def WebhookLogRepository.get_by_provider_event_id (logs : List WebhookLog)
    (provider_event_id : String) : Option WebhookLog :=
  logs.find? (fun w => w.provider_event_id == some provider_event_id)

/-- `WebhookLogRepository.create_incoming`: insert a `delivered` row with
`attempts = 1`.  The `provider_event_id` column is declared `unique=True`
(`models.py:245-249`), so inserting a duplicate raises `IntegrityError` at
flush. -/
def WebhookLogRepository.create_incoming (logs : List WebhookLog) (event_type : String)
    (provider : String) (provider_event_id : String) (payload : List (String × String))
    (payment_id : Option Nat) (new_id : Nat) (now : Int) :
    Except PyErr (List WebhookLog × WebhookLog) :=
  if logs.any (fun w => w.provider_event_id == some provider_event_id) then
    .error (.integrityError "UNIQUE constraint failed: webhook_logs.provider_event_id")
  else
    let log : WebhookLog := {
      id := new_id, direction := .incoming, event_type := event_type,
      provider := some provider, provider_event_id := some provider_event_id,
      partner_id := none, partner_name := none, payment_id := payment_id,
      status := .delivered, attempts := 1, last_attempt_at := some now,
      next_retry_at := none, payload := payload, response := none,
      error_message := none, response_status_code := none, duration_ms := none,
      updated_at := none }
    .ok (logs ++ [log], log)

/-- `WebhookLogRepository.create_outgoing`: insert a `pending` row with
`attempts = 0` before any delivery attempt. -/
def WebhookLogRepository.create_outgoing (logs : List WebhookLog) (event_type : String)
    (partner_id : Nat) (partner_name : String) (payload : List (String × String))
    (payment_id : Option Nat) (new_id : Nat) : List WebhookLog × WebhookLog :=
  let log : WebhookLog := {
    id := new_id, direction := .outgoing, event_type := event_type,
    provider := none, provider_event_id := none,
    partner_id := some partner_id, partner_name := some partner_name,
    payment_id := payment_id, status := .pending, attempts := 0,
    last_attempt_at := none, next_retry_at := none, payload := payload,
    response := none, error_message := none, response_status_code := none,
    duration_ms := none, updated_at := none }
  (logs ++ [log], log)

/-- `WebhookLogRepository.mark_delivered`: id-keyed `UPDATE` to `delivered`,
`attempts += 1`, clear `next_retry_at`; then refetch. -/
def WebhookLogRepository.mark_delivered (logs : List WebhookLog) (webhook_id : Nat)
    (response_status_code : Int) (response : Option (List (String × String)))
    (duration_ms : Option Int) (now : Int) : List WebhookLog × Option WebhookLog :=
  let logs2 := logs.map (fun w =>
    if w.id == webhook_id then
      { w with
        status := .delivered,
        attempts := w.attempts + 1,
        last_attempt_at := some now,
        response_status_code := some response_status_code,
        response := response,
        duration_ms := duration_ms,
        next_retry_at := none,
        updated_at := some now }
    else w)
  (logs2, WebhookLogRepository.get_by_id logs2 webhook_id)

/-- `WebhookLogRepository.mark_failed`: fetch, bump `attempts`; at
`MAX_ATTEMPTS` go terminal `failed` with no retry, otherwise `retrying` with
`next_retry_at = now + delay` from the (clamped) delay table; persist and
refetch. -/
def WebhookLogRepository.mark_failed (logs : List WebhookLog) (webhook_id : Nat)
    (error_message : String) (response_status_code : Option Int)
    (duration_ms : Option Int) (now : Int) : List WebhookLog × Option WebhookLog :=
  match WebhookLogRepository.get_by_id logs webhook_id with
  | none => (logs, none)
  | some webhook =>
    let new_attempts := webhook.attempts + 1
    let new_status : WebhookStatus :=
      if new_attempts ≥ WebhookLogRepository.MAX_ATTEMPTS then .failed else .retrying
    let next_retry : Option Int :=
      if new_attempts ≥ WebhookLogRepository.MAX_ATTEMPTS then none
      else
        some (now + 60 * WebhookLogRepository.RETRY_DELAYS_MINUTES.getD
          (min (new_attempts - 1) (WebhookLogRepository.RETRY_DELAYS_MINUTES.length - 1)) 0)
    let logs2 := logs.map (fun w =>
      if w.id == webhook_id then
        { w with
          status := new_status,
          attempts := new_attempts,
          last_attempt_at := some now,
          error_message := some error_message,
          response_status_code := response_status_code,
          duration_ms := duration_ms,
          next_retry_at := next_retry,
          updated_at := some now }
      else w)
    (logs2, WebhookLogRepository.get_by_id logs2 webhook_id)

/- ### `app/services/webhook_service.py` -/

/-- The `WebhookEvent` dataclass of `app/adapters/base.py` (normalized
inbound provider event). -/
structure WebhookEvent where
  event_type : String
  provider : String
  provider_event_id : String
  provider_payment_id : Option String
  amount : Option Int
  currency : Option String
  status : Option String
  metadata : List (String × String)
  raw_data : List (String × String)
deriving DecidableEq

/-- The persistent state a `WebhookService` call touches: the three logical
tables. -/
structure ServiceState where
  payments : List Payment
  partners : List Partner
  logs : List WebhookLog
deriving DecidableEq

/-- The `status_map` of `WebhookService._process_payment_event`. -/
def status_map (event_type : String) : Option PaymentStatus :=
  if event_type = "payment.succeeded" then some .succeeded
  else if event_type = "payment.failed" then some .failed
  else if event_type = "payment.canceled" then some .canceled
  else if event_type = "payment.refunded" then some .refunded
  else none

/-- Lookup in a string-valued JSON object. -/
def lookupStr (l : List (String × String)) (k : String) : Option String :=
  (l.find? (fun kv => kv.1 == k)).map (fun kv => kv.2)

/-- `WebhookService._process_payment_event`: resolve the payment by
`provider_payment_id`, falling back to `metadata["payment_id"]` (UUID parse
failures are swallowed); apply the mapped status only when it differs from
the current one; return the affected payment's id. -/
def WebhookService.process_payment_event (st : ServiceState) (event : WebhookEvent)
    (now : Int) : ServiceState × Option Nat :=
  match event.provider_payment_id with
  | none => (st, none)
  | some ppid =>
    let payment0 := PaymentRepository.get_by_provider_id st.payments ppid
    let payment1 := match payment0 with
      | some p => some p
      | none =>
        ((lookupStr event.metadata "payment_id").bind String.toNat?).bind
          (PaymentRepository.get_by_id st.payments)
    match payment1 with
    | none => (st, none)
    | some payment =>
      match status_map event.event_type with
      | some new_status =>
        if payment.status ≠ new_status then
          let r := PaymentRepository.update_status st.payments payment.id new_status
            none none none none now
          ({ st with payments := r.1 }, some payment.id)
        else (st, some payment.id)
      | none => (st, some payment.id)

/-- The values of the `WebhookEventType` enum (`app/schemas/partner.py`):
`WebhookEventType(event_type)` succeeds exactly on these. -/
def webhookEventTypeValues : List String :=
  ["payment.created", "payment.succeeded", "payment.failed", "payment.refunded",
   "adoption.created", "adoption.approved", "adoption.completed",
   "campaign.goal_reached", "campaign.ended", "order.created", "service.activated"]

/-- `PartnerRepository.list_by_event`: active partners subscribed to the
event type. -/
def PartnerRepository.list_by_event (partners : List Partner) (event_type : String) :
    List Partner :=
  partners.filter (fun p => p.status == PartnerStatus.active && p.events.contains event_type)

/-- `PartnerRepository.increment_webhooks_sent`: best-effort counter bump. -/
def PartnerRepository.increment_webhooks_sent (partners : List Partner)
    (partner_id : Nat) (now : Int) : List Partner :=
  partners.map (fun p =>
    if p.id == partner_id then
      { p with total_webhooks_sent := p.total_webhooks_sent + 1, last_webhook_at := some now }
    else p)

/-- `OutgoingWebhookPayload` of `app/schemas/webhook.py`: the canonical
outbound envelope. -/
structure OutgoingWebhookPayload where
  id : Nat
  event : String
  timestamp : Int
  data : List (String × String)
  source : String
  version : String
deriving DecidableEq

/-- Deterministic stand-in for
`json.dumps(payload.model_dump(mode="json"), default=str).encode("utf-8")`:
no verified property inspects the byte-level JSON rendering - only its
determinism matters (for signing) - so the envelope is rendered through a
simple canonical text form. -/
def envelopeBytes (e : OutgoingWebhookPayload) : List Nat :=
  strBytes (String.intercalate "|"
    ([toString e.id, e.event, toString e.timestamp, e.source, e.version] ++
      e.data.map (fun kv => kv.1 ++ "=" ++ kv.2)))

/-- The envelope as the JSON object stored in the log's `payload` column. -/
def envelopeDict (e : OutgoingWebhookPayload) : List (String × String) :=
  [("id", toString e.id), ("event", e.event), ("timestamp", toString e.timestamp),
   ("source", e.source), ("version", e.version)] ++ e.data

/-- Outcome of the outbound `httpx` POST, as seen by the dispatcher. -/
inductive HttpOutcome where
  | response (status_code : Int) (body : String)
  | timeout
  | transportError (message : String)
deriving DecidableEq

/-- The environment of one dispatch attempt: the `uuid4()` draw for the
envelope, the new log row's id, the clock, the measured duration and the
HTTP outcome. -/
structure SendEnv where
  uuid : Nat
  log_id : Nat
  now : Int
  duration_ms : Int
  outcome : HttpOutcome
deriving DecidableEq

/-- `WebhookService.send_webhook_to_partner`: build and sign the envelope,
persist a `pending` outgoing WebhookLog BEFORE the send, then POST; on 2xx
`mark_delivered` and bump the partner counter, on non-2xx / timeout / any
transport error `mark_failed`; in every case return the log id - no branch
raises to the caller. -/
def WebhookService.send_webhook_to_partner (st : ServiceState) (partner : Partner)
    (event_type : String) (data : List (String × String)) (payment_id : Option Nat)
    (env : SendEnv) : ServiceState × Option Nat :=
  let webhook_payload : OutgoingWebhookPayload :=
    { id := env.uuid, event := event_type, timestamp := env.now, data := data,
      source := "love4pets", version := "1.0" }
  let payload_bytes := envelopeBytes webhook_payload
  let _signature := create_webhook_signature_header payload_bytes partner.secret env.now
  let r0 := WebhookLogRepository.create_outgoing st.logs event_type partner.id partner.name
    (envelopeDict webhook_payload) payment_id env.log_id
  let st1 : ServiceState := { st with logs := r0.1 }
  match env.outcome with
  | .response code body =>
    if 200 ≤ code ∧ code < 300 then
      let r1 := WebhookLogRepository.mark_delivered st1.logs r0.2.id code
        (some [("body", body)]) (some env.duration_ms) env.now
      let partners2 := PartnerRepository.increment_webhooks_sent st1.partners partner.id
        env.now
      ({ st1 with logs := r1.1, partners := partners2 }, some r0.2.id)
    else
      let r1 := WebhookLogRepository.mark_failed st1.logs r0.2.id
        ("HTTP " ++ toString code ++ ": " ++ body) (some code) (some env.duration_ms)
        env.now
      ({ st1 with logs := r1.1 }, some r0.2.id)
  | .timeout =>
    let r1 := WebhookLogRepository.mark_failed st1.logs r0.2.id "Request timeout" none
      (some env.duration_ms) env.now
    ({ st1 with logs := r1.1 }, some r0.2.id)
  | .transportError msg =>
    let r1 := WebhookLogRepository.mark_failed st1.logs r0.2.id msg none
      (some env.duration_ms) env.now
    ({ st1 with logs := r1.1 }, some r0.2.id)

/-- `WebhookService._notify_n8n`: best-effort HTTP notification with every
exception swallowed (non-fatal); it touches no persistent state and is the
identity on the service state. -/
def WebhookService.notify_n8n (st : ServiceState) : ServiceState := st

/-- `WebhookService._dispatch_to_partners`: validate the event type against
the `WebhookEventType` enum (a `ValueError` returns `[]`), collect the
subscribed active partners, build the payload from the payment row, and send
to each partner in order.  `envs` supplies the per-send draws and HTTP
outcomes, indexed by the partner's position.  (The payload's `campaign_id`,
`refugio_id` and `metadata` entries are omitted along with the corresponding
`Payment` columns; no verified property reads the payload.) -/
def WebhookService.dispatch_to_partners (st : ServiceState) (event_type : String)
    (payment_id : Nat) (envs : Nat → SendEnv) : ServiceState × List Nat :=
  if webhookEventTypeValues.contains event_type then
    let subscribed := PartnerRepository.list_by_event st.partners event_type
    match PaymentRepository.get_by_id st.payments payment_id with
    | none => (st, [])
    | some payment =>
      let payload_data : List (String × String) :=
        [("payment_id", toString payment.id), ("amount", toString payment.amount),
         ("currency", payment.currency), ("status", statusValue payment.status),
         ("payment_type", payment.payment_type)]
      let res := subscribed.foldl
        (fun (acc : ServiceState × List Nat × Nat) partner =>
          let r := WebhookService.send_webhook_to_partner acc.1 partner event_type
            payload_data (some payment_id) (envs acc.2.2)
          (r.1, acc.2.1 ++ (match r.2 with | some i => [i] | none => []), acc.2.2 + 1))
        (st, [], 0)
      (res.1, res.2.1)
  else (st, [])

/-- The dict returned by the inbound processing operations, as a record:
`status` is "already_processed" or "processed"; the Stripe path also carries
`event_type` and `payment_id` keys, the mock path only `event_type`. -/
structure ProcessResult where
  status : String
  webhook_id : Nat
  event_type : Option String
  payment_id : Option Nat
deriving DecidableEq

/-- `WebhookService.process_stripe_webhook`: construct the event (the
provider's verification outcome is the `event_result` parameter; failure
raises `WebhookVerificationError`), DEDUPLICATE by `provider_event_id`
returning an "already_processed" result with no side effects, else process
the payment event, log the incoming webhook, fan out to partners and notify
n8n. -/
def WebhookService.process_stripe_webhook (st : ServiceState)
    (event_result : Except String WebhookEvent) (new_log_id : Nat)
    (envs : Nat → SendEnv) (now : Int) : ServiceState × Except PyErr ProcessResult :=
  match event_result with
  | .error e => (st, .error (.verificationError e))
  | .ok event =>
    match WebhookLogRepository.get_by_provider_event_id st.logs event.provider_event_id with
    | some existing =>
      (st, .ok { status := "already_processed", webhook_id := existing.id,
                 event_type := none, payment_id := none })
    | none =>
      let r1 := WebhookService.process_payment_event st event now
      match WebhookLogRepository.create_incoming r1.1.logs event.event_type event.provider
          event.provider_event_id event.raw_data r1.2 new_log_id now with
      | .error e => (r1.1, .error e)
      | .ok r2 =>
        let st2 : ServiceState := { r1.1 with logs := r2.1 }
        let st3 := match r1.2 with
          | some pid => (WebhookService.dispatch_to_partners st2 event.event_type pid envs).1
          | none => st2
        let st4 := WebhookService.notify_n8n st3
        (st4, .ok { status := "processed", webhook_id := r2.2.id,
                    event_type := some event.event_type, payment_id := r1.2 })

/-- `WebhookService.process_mock_webhook`: same pipeline as the Stripe path
but WITHOUT the `get_by_provider_event_id` dedup check - it goes straight
from event construction to `_process_payment_event` and `create_incoming`. -/
def WebhookService.process_mock_webhook (st : ServiceState)
    (event_result : Except String WebhookEvent) (new_log_id : Nat)
    (envs : Nat → SendEnv) (now : Int) : ServiceState × Except PyErr ProcessResult :=
  match event_result with
  | .error e => (st, .error (.verificationError e))
  | .ok event =>
    let r1 := WebhookService.process_payment_event st event now
    match WebhookLogRepository.create_incoming r1.1.logs event.event_type event.provider
        event.provider_event_id event.raw_data r1.2 new_log_id now with
    | .error e => (r1.1, .error e)
    | .ok r2 =>
      let st2 : ServiceState := { r1.1 with logs := r2.1 }
      let st3 := match r1.2 with
        | some pid => (WebhookService.dispatch_to_partners st2 event.event_type pid envs).1
        | none => st2
      let st4 := WebhookService.notify_n8n st3
      (st4, .ok { status := "processed", webhook_id := r2.2.id,
                  event_type := some event.event_type, payment_id := none })

/-- C8: for every partner and every outbound dispatch, (a) `create_outgoing`
always persists the new WebhookLog row with status `pending` into the stored
list - in `send_webhook_to_partner` this happens before the HTTP POST is
attempted - and (b) `send_webhook_to_partner` returns the WebhookLog id in
every outcome (2xx, non-2xx, timeout, transport error): no branch raises a
delivery failure to the caller. -/
theorem claim_C8_outbound_log_before_send (st : ServiceState) (partner : Partner)
    (event_type : String) (data : List (String × String)) (payment_id : Option Nat)
    (env : SendEnv) :
    (∀ (logs : List WebhookLog) (et : String) (pid : Nat) (pname : String)
        (payload : List (String × String)) (payid : Option Nat) (nid : Nat),
      (WebhookLogRepository.create_outgoing logs et pid pname payload payid nid).2.status =
        WebhookStatus.pending ∧
      (WebhookLogRepository.create_outgoing logs et pid pname payload payid nid).2 ∈
        (WebhookLogRepository.create_outgoing logs et pid pname payload payid nid).1) ∧
    (WebhookService.send_webhook_to_partner st partner event_type data payment_id env).2 =
      some env.log_id := by
  constructor
  · intro logs et pid pname payload payid nid
    exact ⟨rfl, by simp [WebhookLogRepository.create_outgoing]⟩
  · obtain ⟨u, lid, n, d, oc⟩ := env
    cases oc with
    | response code body =>
      unfold WebhookService.send_webhook_to_partner
      dsimp only
      split
      · rfl
      · rfl
    | timeout => rfl
    | transportError m => rfl

/-- `WebhookLogRepository.mark_failed` refetches exactly the updated row. -/
theorem mark_failed_refetch (logs : List WebhookLog) (webhook_id : Nat) (err : String)
    (code dur : Option Int) (now : Int) (w : WebhookLog)
    (hfind : WebhookLogRepository.get_by_id logs webhook_id = some w) :
    (WebhookLogRepository.mark_failed logs webhook_id err code dur now).2 =
      some { w with
        status := if w.attempts + 1 ≥ WebhookLogRepository.MAX_ATTEMPTS then .failed
          else .retrying,
        attempts := w.attempts + 1,
        last_attempt_at := some now,
        error_message := some err,
        response_status_code := code,
        duration_ms := dur,
        next_retry_at := if w.attempts + 1 ≥ WebhookLogRepository.MAX_ATTEMPTS then none
          else
            some (now + 60 * WebhookLogRepository.RETRY_DELAYS_MINUTES.getD
              (min (w.attempts + 1 - 1)
                (WebhookLogRepository.RETRY_DELAYS_MINUTES.length - 1)) 0),
        updated_at := some now } := by
  unfold WebhookLogRepository.mark_failed
  rw [hfind]
  dsimp only
  unfold WebhookLogRepository.get_by_id at hfind
  unfold WebhookLogRepository.get_by_id
  exact find_map_update (fun x => x.id) webhook_id
    (fun x =>
      { x with
        status := if w.attempts + 1 ≥ WebhookLogRepository.MAX_ATTEMPTS then .failed
          else .retrying,
        attempts := w.attempts + 1,
        last_attempt_at := some now,
        error_message := some err,
        response_status_code := code,
        duration_ms := dur,
        next_retry_at := if w.attempts + 1 ≥ WebhookLogRepository.MAX_ATTEMPTS then none
          else
            some (now + 60 * WebhookLogRepository.RETRY_DELAYS_MINUTES.getD
              (min (w.attempts + 1 - 1)
                (WebhookLogRepository.RETRY_DELAYS_MINUTES.length - 1)) 0),
        updated_at := some now })
    logs w (fun x => rfl) hfind

/-- C5: a WebhookLog row whose N-th delivery failure is recorded by
`mark_failed` (its stored `attempts` being `N - 1`): for `N < 5` it ends up
`retrying` with `attempts = N`, `last_attempt_at = now` and `next_retry_at =
last_attempt_at + delay[N]` where `delay` is the 1-indexed minute schedule
[1, 5, 30, 120, 720]; on the 5th failure it ends up terminal `failed` with
`next_retry_at` null. -/
theorem claim_C5_retry_schedule (logs : List WebhookLog) (webhook_id : Nat)
    (err : String) (code dur : Option Int) (now : Int) (N : Nat) (w : WebhookLog)
    (hfind : WebhookLogRepository.get_by_id logs webhook_id = some w)
    (hN : w.attempts = N - 1) (h1 : 1 ≤ N) (h5 : N ≤ 5) :
    (N < 5 →
      ((WebhookLogRepository.mark_failed logs webhook_id err code dur now).2.map
        (fun x => x.status) = some WebhookStatus.retrying ∧
       (WebhookLogRepository.mark_failed logs webhook_id err code dur now).2.map
        (fun x => x.attempts) = some N ∧
       (WebhookLogRepository.mark_failed logs webhook_id err code dur now).2.map
        (fun x => x.last_attempt_at) = some (some now) ∧
       (WebhookLogRepository.mark_failed logs webhook_id err code dur now).2.map
        (fun x => x.next_retry_at) =
         some (some (now + 60 * WebhookLogRepository.RETRY_DELAYS_MINUTES.getD (N - 1) 0)))) ∧
    (N = 5 →
      ((WebhookLogRepository.mark_failed logs webhook_id err code dur now).2.map
        (fun x => x.status) = some WebhookStatus.failed ∧
       (WebhookLogRepository.mark_failed logs webhook_id err code dur now).2.map
        (fun x => x.attempts) = some 5 ∧
       (WebhookLogRepository.mark_failed logs webhook_id err code dur now).2.map
        (fun x => x.next_retry_at) = some none)) := by
  have hattempts : w.attempts + 1 = N := by omega
  rw [mark_failed_refetch logs webhook_id err code dur now w hfind]
  constructor
  · intro hlt
    have hgeN : ¬(N ≥ WebhookLogRepository.MAX_ATTEMPTS) := by
      unfold WebhookLogRepository.MAX_ATTEMPTS
      omega
    have hminN : min (N - 1) (WebhookLogRepository.RETRY_DELAYS_MINUTES.length - 1) =
        N - 1 := by
      unfold WebhookLogRepository.RETRY_DELAYS_MINUTES
      simp only [List.length_cons, List.length_nil]
      omega
    simp only [hattempts, Option.map]
    rw [if_neg hgeN, if_neg hgeN, hminN]
    simp
  · intro heq
    have hgeN : N ≥ WebhookLogRepository.MAX_ATTEMPTS := by
      unfold WebhookLogRepository.MAX_ATTEMPTS
      omega
    simp only [hattempts, Option.map]
    rw [if_pos hgeN, if_pos hgeN, heq]
    simp

/-- Concrete retrying row used by the C5 witness (two failures recorded). -/
def c5Log : WebhookLog :=
  { id := 11, direction := .outgoing, event_type := "payment.succeeded",
    provider := none, provider_event_id := none, partner_id := some 1,
    partner_name := some "acme", payment_id := some 1, status := .retrying,
    attempts := 2, last_attempt_at := some 500, next_retry_at := some 800,
    payload := [], response := none, error_message := some "HTTP 500",
    response_status_code := some 500, duration_ms := some 40, updated_at := some 500 }

/-- Witness for C5 at the third failure (N = 3) of `c5Log`: status
`retrying`, `attempts = 3`, `next_retry_at = 1000 + 60·30`. -/
theorem claim_C5_witness :
    WebhookLogRepository.get_by_id [c5Log] 11 = some c5Log ∧
    c5Log.attempts = 3 - 1 ∧ 1 ≤ 3 ∧ 3 ≤ 5 ∧
    ((WebhookLogRepository.mark_failed [c5Log] 11 "HTTP 502" (some 502) (some 55) 1000).2.map
      (fun x => x.status) = some WebhookStatus.retrying ∧
     (WebhookLogRepository.mark_failed [c5Log] 11 "HTTP 502" (some 502) (some 55) 1000).2.map
      (fun x => x.attempts) = some 3 ∧
     (WebhookLogRepository.mark_failed [c5Log] 11 "HTTP 502" (some 502) (some 55) 1000).2.map
      (fun x => x.last_attempt_at) = some (some 1000) ∧
     (WebhookLogRepository.mark_failed [c5Log] 11 "HTTP 502" (some 502) (some 55) 1000).2.map
      (fun x => x.next_retry_at) =
       some (some (1000 + 60 * WebhookLogRepository.RETRY_DELAYS_MINUTES.getD (3 - 1) 0))) :=
  ⟨by decide, by decide, by decide, by decide,
    (claim_C5_retry_schedule [c5Log] 11 "HTTP 502" (some 502) (some 55) 1000 3 c5Log
      (by decide) (by decide) (by decide) (by decide)).1 (by decide)⟩

/-- `_process_payment_event` touches only the payments table. -/
theorem process_payment_event_logs (st : ServiceState) (event : WebhookEvent) (now : Int) :
    (WebhookService.process_payment_event st event now).1.logs = st.logs := by
  unfold WebhookService.process_payment_event
  split
  · rfl
  · dsimp only
    split
    · rfl
    · split
      · split
        · rfl
        · rfl
      · rfl

/-- A successful dedup lookup makes the uniqueness predicate true. -/
theorem any_of_find (logs : List WebhookLog) (eid : String) (w : WebhookLog)
    (h : WebhookLogRepository.get_by_provider_event_id logs eid = some w) :
    logs.any (fun x => x.provider_event_id == some eid) = true := by
  unfold WebhookLogRepository.get_by_provider_event_id at h
  have hmem := List.mem_of_find?_eq_some h
  have hp := List.find?_some h
  exact List.any_eq_true.mpr ⟨w, hmem, hp⟩

/-- C2 (amended): replaying a previously logged `provider_event_id`: the
Stripe processing operation short-circuits, returning an
"already_processed" result and leaving the whole state unchanged; the mock
processing operation has NO dedup check - it re-runs the payment-event
processing and then raises `IntegrityError` on the duplicate
`create_incoming` insert; neither path creates a new WebhookLog row. -/
theorem claim_C2_inbound_dedup (st : ServiceState) (event : WebhookEvent)
    (existing : WebhookLog) (new_log_id : Nat) (envs : Nat → SendEnv) (now : Int)
    (hdup : WebhookLogRepository.get_by_provider_event_id st.logs
      event.provider_event_id = some existing) :
    WebhookService.process_stripe_webhook st (.ok event) new_log_id envs now =
      (st, .ok { status := "already_processed", webhook_id := existing.id,
                 event_type := none, payment_id := none }) ∧
    ((WebhookService.process_mock_webhook st (.ok event) new_log_id envs now).2 =
      .error (.integrityError "UNIQUE constraint failed: webhook_logs.provider_event_id") ∧
     (WebhookService.process_mock_webhook st (.ok event) new_log_id envs now).1.logs =
       st.logs) := by
  constructor
  · unfold WebhookService.process_stripe_webhook
    dsimp only
    rw [hdup]
  · have hlogs := process_payment_event_logs st event now
    have hany : ((WebhookService.process_payment_event st event now).1.logs.any
        (fun x => x.provider_event_id == some event.provider_event_id)) = true := by
      rw [hlogs]
      exact any_of_find st.logs event.provider_event_id existing hdup
    unfold WebhookService.process_mock_webhook
    dsimp only
    unfold WebhookLogRepository.create_incoming
    rw [if_pos hany]
    exact ⟨rfl, hlogs⟩

/-- Already-logged incoming webhook row for the C2 scenario. -/
def c2Log : WebhookLog :=
  { id := 21, direction := .incoming, event_type := "payment.succeeded",
    provider := some "mock", provider_event_id := some "evt_1", partner_id := none,
    partner_name := none, payment_id := none, status := .delivered, attempts := 1,
    last_attempt_at := some 10, next_retry_at := none, payload := [], response := none,
    error_message := none, response_status_code := none, duration_ms := none,
    updated_at := none }

/-- Pending payment matching the C2 event's provider payment id. -/
def c2Payment : Payment :=
  { id := 5, amount := 100, currency := "usd", status := .pending,
    payment_type := "donation", provider := "mock", provider_payment_id := some "pi_1",
    checkout_url := none, success_url := none, cancel_url := none, description := none,
    payment_metadata := [], failure_reason := none, idempotency_key := none,
    created_at := 0, updated_at := none }

/-- Replayed inbound event for the C2 scenario ("evt_1" is already logged). -/
def c2Event : WebhookEvent :=
  { event_type := "payment.succeeded", provider := "mock", provider_event_id := "evt_1",
    provider_payment_id := some "pi_1", amount := some 100, currency := some "usd",
    status := some "succeeded", metadata := [], raw_data := [] }

/-- Service state for the C2 scenario. -/
def c2State : ServiceState :=
  { payments := [c2Payment], partners := [], logs := [c2Log] }

/-- Inert dispatch environment for the C2 scenario (never reached). -/
def c2Env : Nat → SendEnv :=
  fun _ => { uuid := 0, log_id := 0, now := 0, duration_ms := 0, outcome := .timeout }

/-- C2 counterexample: replaying the already-logged event "evt_1" through the
MOCK processing operation does NOT return an "already processed" result - it
raises `IntegrityError` on the duplicate log insert - and it even re-applies
the payment event first, flipping payment 5 from `pending` to `succeeded`
inside the session before the failure. -/
theorem claim_C2_counterexample :
    (WebhookService.process_mock_webhook c2State (.ok c2Event) 22 c2Env 30).2 =
      .error (.integrityError "UNIQUE constraint failed: webhook_logs.provider_event_id") ∧
    (PaymentRepository.get_by_id
      (WebhookService.process_mock_webhook c2State (.ok c2Event) 22 c2Env 30).1.payments
      5).map (fun p => p.status) = some PaymentStatus.succeeded ∧
    c2Payment.status = PaymentStatus.pending := by decide

/-- Witness for the C2 theorem at the concrete replay state. -/
theorem claim_C2_witness :
    WebhookLogRepository.get_by_provider_event_id c2State.logs c2Event.provider_event_id =
      some c2Log ∧
    (WebhookService.process_stripe_webhook c2State (.ok c2Event) 22 c2Env 30 =
      (c2State, .ok { status := "already_processed", webhook_id := c2Log.id,
                      event_type := none, payment_id := none }) ∧
     ((WebhookService.process_mock_webhook c2State (.ok c2Event) 22 c2Env 30).2 =
       .error (.integrityError "UNIQUE constraint failed: webhook_logs.provider_event_id") ∧
      (WebhookService.process_mock_webhook c2State (.ok c2Event) 22 c2Env 30).1.logs =
        c2State.logs)) :=
  ⟨by decide, claim_C2_inbound_dedup c2State c2Event c2Log 22 c2Env 30 (by decide)⟩
